import Mathlib

/- Shallow embedding of the discovery-driven connection lifecycle and relay
manager of the mc-panel-docker repository.

Sources embedded:
- src/panel/server/utils/persistentWsManager.ts (connection lifecycle manager)
- src/panel/server/plugins/mdns.ts (discovery driver and periodic health check)
- src/unnamed/part_004 (mdnsUtils: DiscoveredService, updateStoredServices)
- src/unnamed/part_005 (messageInterceptor: interceptMessage ring buffer)
- src/unnamed/part_008 (relay upgrade handler for observer attachment)
- src/unnamed/part_009 (service delete endpoint)

Modelling conventions: a WebSocket is represented by its readyState; a null
socket field is none.  Times and the random jitter draw are rationals; delays
are in milliseconds as in the source.  Side effects the manager performs
(closing sockets, closing observers, sending payloads, logging) are recorded
in an explicit effect list returned next to the new state.  The field
liveSockets of a session is a ghost counter of sockets created for the session
whose close event has not yet fired; it only gates which socket events can
occur in the trace semantics and is never read by any embedded operation. -/

namespace McPanel

/-- readyState values of a WebSocket, as in the ws library. -/
inductive ReadyState where
  | CONNECTING
  | OPEN
  | CLOSING
  | CLOSED
deriving DecidableEq, Repr

/-- Health status stored for a discovered service (src/unnamed/part_004). -/
inductive ServiceStatus where
  | up
  | down
deriving DecidableEq, Repr

/-- DiscoveredService (src/unnamed/part_004).  The optional cleanName field is
omitted: no code under study reads it. -/
structure DiscoveredService where
  name : String
  port : Nat
  address : String
  status : Option ServiceStatus := none
deriving DecidableEq, Repr

/-- TargetConnectionState (persistentWsManager.ts, lines 12-19).  ws holds the
readyState of the current upstream socket, none when the field is null; the
reconnect timer holds the scheduled delay in milliseconds when pending.
liveSockets is a ghost counter, see the file header. -/
structure TargetConnectionState where
  ws : Option ReadyState
  service : DiscoveredService
  targetWsUrl : String
  reconnectTimer : Option ℚ
  reconnectAttempts : Nat
  isClosingIntentionally : Bool
  liveSockets : Nat
deriving DecidableEq, Repr

/-- A frontend observer socket, identified by id, with its readyState. -/
structure Observer where
  id : Nat
  readyState : ReadyState
deriving DecidableEq, Repr

/-- The two service-name-keyed maps of persistentWsManager.ts (lines 22-23). -/
structure ManagerState where
  targetConnections : String → Option TargetConnectionState
  frontendClients : String → Option (List Observer)

/-- Both maps empty (module initialisation). -/
def emptyManager : ManagerState := ⟨fun _ => none, fun _ => none⟩

/-- The whole system: the persisted service registry list (storage key
minecraft_services:discovered) plus the manager maps. -/
structure SystemState where
  storage : List DiscoveredService
  manager : ManagerState

/-- Observable side effects performed by the embedded operations. -/
inductive Effect where
  | connectAttempt (name : String)
  | closeUpstream (name : String) (code : Nat) (reason : String)
  | closeObserver (obsId : Nat) (code : Nat) (reason : String)
  | sendToTarget (name : String) (payload : String) (isBinary : Bool)
  | logWarn (msg : String)
deriving DecidableEq, Repr

/-- Parameters of one call to connectToTarget: whether the WebSocket
constructor throws (the catch branch of persistentWsManager.ts line 177), and
the Math.random() draw used if scheduleReconnect runs. -/
structure ConnParams where
  ctorFail : Bool
  r : ℚ
deriving DecidableEq, Repr

/-- INITIAL_RECONNECT_DELAY (persistentWsManager.ts line 6), in ms. -/
def INITIAL_RECONNECT_DELAY : ℕ := 1000

/-- MAX_RECONNECT_DELAY (line 7), in ms. -/
def MAX_RECONNECT_DELAY : ℕ := 30000

/-- RECONNECT_BACKOFF_FACTOR (line 8). -/
def RECONNECT_BACKOFF_FACTOR : ℕ := 2

/-- MAX_RECONNECT_ATTEMPTS (line 9). -/
def MAX_RECONNECT_ATTEMPTS : Nat := 10

/-- MAX_MESSAGES_PER_SERVICE (src/unnamed/part_005 line 101). -/
def MAX_MESSAGES_PER_SERVICE : Nat := 500

/-- Pointwise update of a string-keyed map. -/
def mapSet {α : Type} (m : String → Option α) (k : String) (v : Option α) :
    String → Option α :=
  fun n => if n = k then v else m n

/-- Update the targetConnections map at one key. -/
def setTC (ms : ManagerState) (k : String) (v : Option TargetConnectionState) :
    ManagerState :=
  { ms with targetConnections := mapSet ms.targetConnections k v }

/-- Update the frontendClients map at one key. -/
def setFC (ms : ManagerState) (k : String) (v : Option (List Observer)) :
    ManagerState :=
  { ms with frontendClients := mapSet ms.frontendClients k v }

/-- A socket that close(code, reason) will act on, i.e. readyState OPEN or
CONNECTING (guard used throughout persistentWsManager.ts). -/
def isLive : ReadyState → Bool
  | .OPEN => true
  | .CONNECTING => true
  | _ => false

/-- OPEN-or-CONNECTING test on an optional socket. -/
def wsActive : Option ReadyState → Bool
  | some rs => isLive rs
  | none => false

/-- closeAssociatedFrontendClients (persistentWsManager.ts lines 60-71):
close every open/connecting client of the service with the given code and
reason, then delete the set. -/
def closeAssociatedFrontendClients (serviceName : String) (code : Nat)
    (reason : String) (ms : ManagerState) : ManagerState × List Effect :=
  match ms.frontendClients serviceName with
  | none => (ms, [])
  | some clients =>
      (setFC ms serviceName none,
       clients.filterMap (fun c =>
         if isLive c.readyState then
           some (Effect.closeObserver c.id code reason)
         else none))

/-- scheduleReconnect (persistentWsManager.ts lines 26-57).  rand is the
Math.random() draw; the jitter factor is 0.9 + rand * 0.2.  On giving up
(attempts at the cap) the session is deleted and the frontend clients are
closed with code 1011. -/
def scheduleReconnect (serviceName : String) (rand : ℚ) (ms : ManagerState) :
    ManagerState × List Effect :=
  match ms.targetConnections serviceName with
  | none => (ms, [])
  | some state =>
      if state.isClosingIntentionally ∨
          MAX_RECONNECT_ATTEMPTS ≤ state.reconnectAttempts then
        if MAX_RECONNECT_ATTEMPTS ≤ state.reconnectAttempts then
          closeAssociatedFrontendClients serviceName 1011
            ("Target service " ++ serviceName ++
              " unreachable after multiple retries")
            (setTC ms serviceName none)
        else (ms, [])
      else
        let delay0 : ℚ :=
          ((min (INITIAL_RECONNECT_DELAY *
                RECONNECT_BACKOFF_FACTOR ^ state.reconnectAttempts)
            MAX_RECONNECT_DELAY : ℕ) : ℚ)
        let delay := delay0 * (9/10 + rand * (1/5))
        (setTC ms serviceName
          (some { state with
                  reconnectAttempts := state.reconnectAttempts + 1,
                  reconnectTimer := some delay }), [])

/-- Target URL computed by the manager (ws scheme, fixed port 8080). -/
def targetUrlOf (address : String) : String :=
  "ws://" ++ address ++ ":8080/"

/-- Body of connectToTarget after the state has been looked up or created
(persistentWsManager.ts lines 94-188): skip if a socket is already connecting
or open; on constructor failure null the socket and schedule a reconnect
unless closing intentionally; on success install a CONNECTING socket, update
the URL, clear the intentional-close flag and make sure the frontend client
set exists. -/
def connectToTargetAux (p : ConnParams) (service : DiscoveredService)
    (ms : ManagerState) (st : TargetConnectionState) :
    ManagerState × List Effect :=
  let serviceName := service.name
  if st.ws = some ReadyState.CONNECTING ∨ st.ws = some ReadyState.OPEN then
    (ms, [])
  else if p.ctorFail then
    let ms1 := setTC ms serviceName (some { st with ws := none })
    if st.isClosingIntentionally then (ms1, [])
    else scheduleReconnect serviceName p.r ms1
  else
    let st1 := { st with
                 ws := some ReadyState.CONNECTING,
                 targetWsUrl := targetUrlOf service.address,
                 isClosingIntentionally := false,
                 liveSockets := st.liveSockets + 1 }
    let ms1 := setTC ms serviceName (some st1)
    let ms2 :=
      match ms1.frontendClients serviceName with
      | none => setFC ms1 serviceName (some [])
      | some _ => ms1
    (ms2, [Effect.connectAttempt serviceName])

/-- connectToTarget (persistentWsManager.ts lines 74-189).  If no state exists
a minimal one is created first (the defensive branch at lines 80-92). -/
def connectToTarget (p : ConnParams) (service : DiscoveredService)
    (ms : ManagerState) : ManagerState × List Effect :=
  match ms.targetConnections service.name with
  | none =>
      let st : TargetConnectionState :=
        { ws := none, service := service,
          targetWsUrl := targetUrlOf service.address,
          reconnectTimer := none, reconnectAttempts := 0,
          isClosingIntentionally := false, liveSockets := 0 }
      connectToTargetAux p service (setTC ms service.name (some st)) st
  | some st => connectToTargetAux p service ms st

/-- getOpenTargetWebSocket (persistentWsManager.ts lines 194-200). -/
def getOpenTargetWebSocket (serviceName : String) (ms : ManagerState) :
    Option ReadyState :=
  match ms.targetConnections serviceName with
  | some st => if st.ws = some ReadyState.OPEN then st.ws else none
  | none => none

/-- hasActiveTargetConnection (persistentWsManager.ts lines 203-206). -/
def hasActiveTargetConnection (serviceName : String) (ms : ManagerState) :
    Bool :=
  match ms.targetConnections serviceName with
  | some st => wsActive st.ws
  | none => false

/-- initializeTargetConnection (persistentWsManager.ts lines 209-249). -/
def initializeTargetConnection (p : ConnParams) (service : DiscoveredService)
    (ms : ManagerState) : ManagerState × List Effect :=
  if service.name = "" ∨ service.address = "" then (ms, [])
  else
    match ms.targetConnections service.name with
    | none =>
        let st : TargetConnectionState :=
          { ws := none, service := service,
            targetWsUrl := targetUrlOf service.address,
            reconnectTimer := none, reconnectAttempts := 0,
            isClosingIntentionally := false, liveSockets := 0 }
        connectToTarget p service (setTC ms service.name (some st))
    | some st =>
        let st1 := { st with
                     service := service,
                     targetWsUrl := targetUrlOf service.address,
                     isClosingIntentionally := false }
        if st1.ws = none ∨ st1.ws = some ReadyState.CLOSED ∨
            st1.ws = some ReadyState.CLOSING then
          let st2 := { st1 with reconnectTimer := none, reconnectAttempts := 0 }
          connectToTarget p service (setTC ms service.name (some st2))
        else (setTC ms service.name (some st1), [])

/-- closeTargetConnection (persistentWsManager.ts lines 252-275): mark the
session closingIntentionally, cancel any pending timer; close an open or
connecting socket with code 1000 (its readyState becomes CLOSING), otherwise
delete the session at once; in both cases force-close the frontend clients
with code 1000. -/
def closeTargetConnection (serviceName : String) (ms : ManagerState) :
    ManagerState × List Effect :=
  match ms.targetConnections serviceName with
  | none => (ms, [])
  | some st =>
      let st1 := { st with
                   isClosingIntentionally := true,
                   reconnectTimer := none }
      if wsActive st1.ws then
        let st2 := { st1 with ws := some ReadyState.CLOSING }
        let pr := closeAssociatedFrontendClients serviceName 1000
            "Target service removed or marked down"
            (setTC ms serviceName (some st2))
        (pr.1,
         Effect.closeUpstream serviceName 1000 "Service removed or marked down"
           :: pr.2)
      else
        closeAssociatedFrontendClients serviceName 1000
          "Target service removed or marked down"
          (setTC ms serviceName none)

/-- shutdownManager (persistentWsManager.ts lines 278-294): every session is
marked intentional and closed, then both maps are cleared.  The per-socket
close effects are not recorded; no claim under study observes them. -/
def shutdownManager (_ms : ManagerState) : ManagerState := emptyManager

/-- addFrontendClient (persistentWsManager.ts lines 299-307).  The source adds
to a Set keyed by object identity; observers are identified by id here, so
adding an already-present observer leaves the set unchanged. -/
def addFrontendClient (serviceName : String) (frontendWs : Observer)
    (ms : ManagerState) : ManagerState :=
  let clients := (ms.frontendClients serviceName).getD []
  if clients.any (fun c => c.id == frontendWs.id) then
    setFC ms serviceName (some clients)
  else
    setFC ms serviceName (some (clients ++ [frontendWs]))

/-- removeFrontendClient (persistentWsManager.ts lines 310-316). -/
def removeFrontendClient (serviceName : String) (frontendWs : Observer)
    (ms : ManagerState) : ManagerState :=
  match ms.frontendClients serviceName with
  | none => ms
  | some clients =>
      setFC ms serviceName (some (clients.filter (fun c => c.id != frontendWs.id)))

/-- sendMessageToTarget (persistentWsManager.ts lines 319-328): deliver to the
upstream socket only when it is OPEN; otherwise only a server-side warning is
logged and the state is untouched (nothing is buffered, the sending client is
not contacted). -/
def sendMessageToTarget (serviceName : String) (message : String)
    (isBinary : Bool) (ms : ManagerState) : ManagerState × List Effect :=
  match ms.targetConnections serviceName with
  | some st =>
      if st.ws = some ReadyState.OPEN then
        (ms, [Effect.sendToTarget serviceName message isBinary])
      else
        (ms, [Effect.logWarn ("Cannot send message to target " ++ serviceName
          ++ ": WebSocket not open or not found.")])
  | none =>
      (ms, [Effect.logWarn ("Cannot send message to target " ++ serviceName
        ++ ": WebSocket not open or not found.")])

/-- InterceptedMessage (src/unnamed/part_005 lines 89-93). -/
structure InterceptedMessage where
  timestamp : Nat
  message : String
  isBinary : Bool
deriving DecidableEq, Repr

/-- Storage update performed by interceptMessage (src/unnamed/part_005 lines
119-155) on one service's stored list: append the new record (binary payloads
are base64-encoded by b64, text payloads stored as-is), then trim the oldest
entries past MAX_MESSAGES_PER_SERVICE via splice(0, length - max).  Logging
and the Discord bridging tail of the function never touch the stored list and
are omitted. -/
def interceptMessage (b64 : String → String) (now : Nat) (message : String)
    (isBinary : Bool) (currentMessages : List InterceptedMessage) :
    List InterceptedMessage :=
  let messageContent := if isBinary then b64 message else message
  let newMessage : InterceptedMessage :=
    { timestamp := now, message := messageContent, isBinary := isBinary }
  let msgs := currentMessages ++ [newMessage]
  if MAX_MESSAGES_PER_SERVICE < msgs.length then
    msgs.drop (msgs.length - MAX_MESSAGES_PER_SERVICE)
  else msgs

/-- updateStoredServices (src/unnamed/part_004 lines 44-72): add the service
if its name is new, replace the entry if address or port changed; the Bool
reports whether storage was modified. -/
def updateStoredServices (serviceInfo : DiscoveredService)
    (currentServices : List DiscoveredService) :
    List DiscoveredService × Bool :=
  match currentServices.findIdx? (fun s => s.name == serviceInfo.name) with
  | none => (currentServices ++ [serviceInfo], true)
  | some idx =>
      match currentServices[idx]? with
      | some existing =>
          if existing.address ≠ serviceInfo.address ∨
              existing.port ≠ serviceInfo.port then
            (currentServices.set idx serviceInfo, true)
          else (currentServices, false)
      | none => (currentServices, false)

/-- Result of the service delete endpoint (src/unnamed/part_009). -/
inductive DeleteResult where
  | badRequest
  | notFound
  | deleted
deriving DecidableEq, Repr

/-- The service delete endpoint (src/unnamed/part_009): remove the service
from the stored list by name.  It touches nothing but storage: in particular
it never calls into the connection manager. -/
def deleteServiceEndpoint (serviceName : String) (sys : SystemState) :
    SystemState × DeleteResult :=
  if serviceName = "" then (sys, DeleteResult.badRequest)
  else
    let remaining := sys.storage.filter (fun s => s.name != serviceName)
    if remaining.length = sys.storage.length then (sys, DeleteResult.notFound)
    else ({ sys with storage := remaining }, DeleteResult.deleted)

/-- Outcome of an observer attach request at the relay endpoint. -/
inductive AttachResult where
  | badRequest
  | notFound
  | unavailable
  | notOpen
  | attached
deriving DecidableEq, Repr

/-- The relay upgrade handler (src/unnamed/part_008 lines 32-147) for a
request addressed to the given service name: 400 when the name is empty, 404
when the service is not in storage, 503 when the manager has no open or
connecting upstream (after kicking off initializeTargetConnection), close the
fresh observer with 1011 when the upstream exists but is not OPEN at
association time; only with an OPEN upstream is the observer added. -/
def relayUpgrade (p : ConnParams) (obs : Observer) (serviceName : String)
    (sys : SystemState) : SystemState × AttachResult × List Effect :=
  if serviceName = "" then (sys, AttachResult.badRequest, [])
  else
    match sys.storage.find? (fun s => s.name == serviceName) with
    | none => (sys, AttachResult.notFound, [])
    | some targetService =>
        if hasActiveTargetConnection serviceName sys.manager then
          match getOpenTargetWebSocket serviceName sys.manager with
          | none =>
              (sys, AttachResult.notOpen,
               [Effect.closeObserver obs.id 1011
                 ("Target service " ++ serviceName ++
                   " is not available or still connecting.")])
          | some _ =>
              ({ sys with
                 manager := addFrontendClient serviceName obs sys.manager },
               AttachResult.attached, [])
        else
          let pr := initializeTargetConnection p targetService sys.manager
          ({ sys with manager := pr.1 }, AttachResult.unavailable, pr.2)

/-- The target socket open handler (persistentWsManager.ts lines 112-122):
the socket becomes OPEN, reconnectAttempts is reset to 0 and any pending
timer is cancelled. -/
def onTargetOpen (serviceName : String) (ms : ManagerState) : ManagerState :=
  match ms.targetConnections serviceName with
  | some st =>
      if st.ws = some ReadyState.CONNECTING then
        setTC ms serviceName
          (some { st with
                  ws := some ReadyState.OPEN,
                  reconnectAttempts := 0,
                  reconnectTimer := none })
      else ms
  | none => ms

/-- The target socket close handler (persistentWsManager.ts lines 141-161):
null the socket; when not closing intentionally run scheduleReconnect and
then force-close the frontend clients with 1011; when intentional, delete the
session.  Gated by the ghost liveSockets counter. -/
def onTargetClose (serviceName : String) (_code : Nat) (reason : String)
    (rand : ℚ) (ms : ManagerState) : ManagerState × List Effect :=
  match ms.targetConnections serviceName with
  | none => (ms, [])
  | some st =>
      if st.liveSockets = 0 then (ms, [])
      else
        let st1 := { st with ws := none, liveSockets := st.liveSockets - 1 }
        let ms1 := setTC ms serviceName (some st1)
        if st.isClosingIntentionally then (setTC ms1 serviceName none, [])
        else
          let pr1 := scheduleReconnect serviceName rand ms1
          let pr2 := closeAssociatedFrontendClients serviceName 1011
              ("Target service " ++ serviceName ++ " disconnected: " ++ reason)
              pr1.1
          (pr2.1, pr1.2 ++ pr2.2)

/-- The target socket error handler (persistentWsManager.ts lines 163-173):
null the socket and close the frontend clients with 1011; no reconnect is
scheduled here (the close event is expected to follow). -/
def onTargetError (serviceName : String) (msg : String) (ms : ManagerState) :
    ManagerState × List Effect :=
  match ms.targetConnections serviceName with
  | none => (ms, [])
  | some st =>
      if st.liveSockets = 0 then (ms, [])
      else
        closeAssociatedFrontendClients serviceName 1011
          ("Target service " ++ serviceName ++ " error: " ++ msg)
          (setTC ms serviceName (some { st with ws := none }))

/-- The reconnect timer callback (persistentWsManager.ts lines 52-56): clear
the timer reference and call connectToTarget with the session's service. -/
def onReconnectTimer (serviceName : String) (p : ConnParams)
    (ms : ManagerState) : ManagerState × List Effect :=
  match ms.targetConnections serviceName with
  | none => (ms, [])
  | some st =>
      match st.reconnectTimer with
      | none => (ms, [])
      | some _ =>
          connectToTarget p st.service
            (setTC ms serviceName (some { st with reconnectTimer := none }))

/-- One health-check result for one service (src/panel/server/plugins/mdns.ts
lines 86-131): on a status transition persist the new status and either
re-initialize (up) or close (down) the connection. -/
def healthCheckResult (serviceName : String) (isHealthy : Bool)
    (p : ConnParams) (sys : SystemState) : SystemState × List Effect :=
  match sys.storage.find? (fun s => s.name == serviceName) with
  | none => (sys, [])
  | some svc =>
      let newStatus : ServiceStatus :=
        if isHealthy then ServiceStatus.up else ServiceStatus.down
      if svc.status = some newStatus then (sys, [])
      else
        let storageA := sys.storage.map (fun s =>
          if s.name == serviceName then { s with status := some newStatus }
          else s)
        if isHealthy then
          let pr := initializeTargetConnection p
            { svc with status := some newStatus } sys.manager
          (⟨storageA, pr.1⟩, pr.2)
        else
          let pr := closeTargetConnection serviceName sys.manager
          (⟨storageA, pr.1⟩, pr.2)

/-- The mDNS browser up handler (src/panel/server/plugins/mdns.ts lines
54-66): update storage with the discovered service and initialize a
connection only when storage actually changed. -/
def mdnsServiceUp (info : DiscoveredService) (p : ConnParams)
    (sys : SystemState) : SystemState × List Effect :=
  let pr := updateStoredServices info sys.storage
  if pr.2 then
    let pm := initializeTargetConnection p info sys.manager
    (⟨pr.1, pm.1⟩, pm.2)
  else (⟨pr.1, sys.manager⟩, [])

/-- Events driving the system; each carries the environment data its handler
consumes (random draws, constructor failure). -/
inductive Event where
  | mdnsUp (info : DiscoveredService) (p : ConnParams)
  | healthResult (name : String) (isHealthy : Bool) (p : ConnParams)
  | wsOpen (name : String)
  | wsClose (name : String) (code : Nat) (reason : String) (rand : ℚ)
  | wsError (name : String) (msg : String)
  | timerFire (name : String) (p : ConnParams)
  | apiDelete (name : String)
  | relayAttach (name : String) (obs : Observer) (p : ConnParams)
  | clientDetach (name : String) (obs : Observer)
  | clientSend (name : String) (payload : String) (isBinary : Bool)
  | shutdown

/-- One step of the system. -/
def step (e : Event) (sys : SystemState) : SystemState × List Effect :=
  match e with
  | .mdnsUp info p => mdnsServiceUp info p sys
  | .healthResult name h p => healthCheckResult name h p sys
  | .wsOpen name => (⟨sys.storage, onTargetOpen name sys.manager⟩, [])
  | .wsClose name code reason rand =>
      let pr := onTargetClose name code reason rand sys.manager
      (⟨sys.storage, pr.1⟩, pr.2)
  | .wsError name msg =>
      let pr := onTargetError name msg sys.manager
      (⟨sys.storage, pr.1⟩, pr.2)
  | .timerFire name p =>
      let pr := onReconnectTimer name p sys.manager
      (⟨sys.storage, pr.1⟩, pr.2)
  | .apiDelete name => ((deleteServiceEndpoint name sys).1, [])
  | .relayAttach name obs p =>
      let pr := relayUpgrade p obs name sys
      (pr.1, pr.2.2)
  | .clientDetach name obs =>
      (⟨sys.storage, removeFrontendClient name obs sys.manager⟩, [])
  | .clientSend name payload b =>
      let pr := sendMessageToTarget name payload b sys.manager
      (⟨sys.storage, pr.1⟩, pr.2)
  | .shutdown => (⟨sys.storage, shutdownManager sys.manager⟩, [])

/-- A Math.random() draw is in the interval from 0 inclusive to 1 exclusive. -/
def qrOK (r : ℚ) : Bool := decide (0 ≤ r) && decide (r < 1)

/-- Well-formedness of one call's parameters. -/
def ConnParams.ok (p : ConnParams) : Bool := qrOK p.r

/-- Validity of an event: all random draws are genuine Math.random() values. -/
def Event.valid : Event → Bool
  | .mdnsUp _ p => p.ok
  | .healthResult _ _ p => p.ok
  | .wsClose _ _ _ rand => qrOK rand
  | .timerFire _ p => p.ok
  | .relayAttach _ _ p => p.ok
  | _ => true

/-- Run a list of events from a state (effects discarded). -/
def run (sys : SystemState) (es : List Event) : SystemState :=
  es.foldl (fun s e => (step e s).1) sys

/-- The initial system state: empty storage, empty manager. -/
def initState : SystemState := ⟨[], emptyManager⟩

/-- A state reachable from the initial state by valid events. -/
def Reachable (s : SystemState) : Prop :=
  ∃ es : List Event, es.all Event.valid = true ∧ run initState es = s

/-- Session soundness used by several claims: attempts within the cap, an
OPEN socket only with zero attempts, and every pending timer delay carrying a
jittered, capped exponential-backoff value for the current attempt number. -/
def GoodState (st : TargetConnectionState) : Prop :=
  st.reconnectAttempts ≤ MAX_RECONNECT_ATTEMPTS ∧
  (st.ws = some ReadyState.OPEN → st.reconnectAttempts = 0) ∧
  ∀ d, st.reconnectTimer = some d →
    1 ≤ st.reconnectAttempts ∧
    ∃ j : ℚ, 9/10 ≤ j ∧ j < 11/10 ∧
      d = j * ((min (INITIAL_RECONNECT_DELAY *
        RECONNECT_BACKOFF_FACTOR ^ (st.reconnectAttempts - 1))
        MAX_RECONNECT_DELAY : ℕ) : ℚ)

/-- Manager invariant: every session is good and keyed by its own service
name. -/
def InvM (ms : ManagerState) : Prop :=
  ∀ name st, ms.targetConnections name = some st →
    GoodState st ∧ st.service.name = name

/-- A session that an intentional close has quiesced: gone, or marked
closingIntentionally with no pending timer. -/
def quiesced (ms : ManagerState) (name : String) : Bool :=
  match ms.targetConnections name with
  | none => true
  | some st => st.isClosingIntentionally && st.reconnectTimer.isNone

/-- The session handle is absent or terminal (null, CLOSING or CLOSED). -/
def terminalFor (ms : ManagerState) (name : String) : Bool :=
  match ms.targetConnections name with
  | none => true
  | some st => !(wsActive st.ws)

/-- Whether an observer with the given id is attached for the service. -/
def observerAttached (ms : ManagerState) (name : String) (i : Nat) : Bool :=
  match ms.frontendClients name with
  | some l => l.any (fun c => c.id == i)
  | none => false

/-- Whether an effect is addressed to the observer with the given id: the
only channel the manager has towards an individual observer is closing its
socket. -/
def Effect.isObserverDirected : Effect → Nat → Bool
  | .closeObserver j _ _, i => j == i
  | _, _ => false

/-- Whether an event can (re-)initialize the connection session of the named
service: a discovery event for that name, a health-check up result for it, or
a relay attach request addressed to it. -/
def Event.reinitFor : Event → String → Bool
  | .mdnsUp info _, name => info.name == name
  | .healthResult n h _, name => n == name && h
  | .relayAttach n _ _, name => n == name
  | _, _ => false

/-! Concrete fixtures used to exercise the model on closed inputs. -/

/-- Connection parameters of a successful constructor call with a random draw
of 0. -/
def p0 : ConnParams := ⟨false, 0⟩

/-- A discovered service as the mDNS handler produces it (no status). -/
def svcA : DiscoveredService := ⟨"alpha", 8080, "172.50.0.5", none⟩

/-- The same service as stored after a successful health check. -/
def svcAup : DiscoveredService :=
  ⟨"alpha", 8080, "172.50.0.5", some ServiceStatus.up⟩

/-- The same service re-discovered at a different address. -/
def svcB : DiscoveredService := ⟨"alpha", 8080, "172.50.0.9", none⟩

/-- An observer socket in the OPEN state. -/
def obs7 : Observer := ⟨7, ReadyState.OPEN⟩

/-- A session with an OPEN upstream socket. -/
def stOpenA : TargetConnectionState :=
  ⟨some ReadyState.OPEN, svcAup, "ws://172.50.0.5:8080/", none, 0, false, 1⟩

/-- A manager with an open session for alpha and one attached observer. -/
def msA : ManagerState :=
  setFC (setTC emptyManager "alpha" (some stOpenA)) "alpha" (some [obs7])

/-- A full system around msA. -/
def sysA : SystemState := ⟨[svcAup], msA⟩

/-- A session still CONNECTING during its third reconnect attempt. -/
def stConnA : TargetConnectionState :=
  ⟨some ReadyState.CONNECTING, svcA, "ws://172.50.0.5:8080/", none, 3, false, 1⟩

/-- A manager whose upstream is not OPEN but with an observer attached. -/
def msConnA : ManagerState :=
  setFC (setTC emptyManager "alpha" (some stConnA)) "alpha" (some [obs7])

/-- A session with an OPEN upstream socket and zero attempts. -/
def stOpen0 : TargetConnectionState :=
  ⟨some ReadyState.OPEN, svcA, "ws://172.50.0.5:8080/", none, 0, false, 1⟩

/-- An open session for alpha with an empty observer set. -/
def msOpen0 : ManagerState :=
  setFC (setTC emptyManager "alpha" (some stOpen0)) "alpha" (some [])

/-- A system in which alpha is stored and open with no observers yet. -/
def sysOpen0 : SystemState := ⟨[svcA], msOpen0⟩

/-- Discovery of alpha. -/
def evDiscover : Event := Event.mdnsUp svcA p0

/-- An unexpected upstream close with a random draw of 0. -/
def evFail : Event := Event.wsClose "alpha" 1006 "refused" 0

/-- The reconnect timer for alpha fires. -/
def evTimer : Event := Event.timerFire "alpha" p0

/-- The upstream socket for alpha opens. -/
def evOpen : Event := Event.wsOpen "alpha"

/-- Discover, then lose the socket: leaves a pending backoff timer. -/
def traceTimerPending : List Event := [evDiscover, evFail]

/-- Discover, lose the socket, let the timer fire: a reconnect in flight. -/
def traceConnecting : List Event := [evDiscover, evFail, evTimer]

/-- Discover and open successfully. -/
def traceOpen : List Event := [evDiscover, evOpen]

/-- The session state after traceOpen. -/
def stOpenRun : TargetConnectionState :=
  ⟨some ReadyState.OPEN, svcA, "ws://172.50.0.5:8080/", none, 0, false, 1⟩

/-- The session state after traceConnecting: CONNECTING with one recorded
attempt, refuting attempts-reset-while-non-null readings. -/
def stConnRun : TargetConnectionState :=
  ⟨some ReadyState.CONNECTING, svcA, "ws://172.50.0.5:8080/", none, 1, false, 1⟩

/-- Discover alpha, open, mark healthy, then watch the health check fail,
the intentional close complete, and alpha be re-announced unchanged. -/
def traceCloseThenAnnounce : List Event :=
  [evDiscover, evOpen,
   Event.healthResult "alpha" true p0,
   Event.healthResult "alpha" false p0,
   Event.wsClose "alpha" 1000 "closed" 0,
   Event.mdnsUp svcA p0]

/-- The same scenario up to the completed intentional close. -/
def traceClosed : List Event :=
  [evDiscover, evOpen,
   Event.healthResult "alpha" true p0,
   Event.healthResult "alpha" false p0,
   Event.wsClose "alpha" 1000 "closed" 0]

/-! Basic lemmas about the map updates and the frontend-only operations. -/

theorem mapSet_self {α : Type} (m : String → Option α) (k : String)
    (v : Option α) : mapSet m k v k = v := by
  simp [mapSet]

theorem mapSet_ne {α : Type} (m : String → Option α) (k : String)
    (v : Option α) (n : String) (h : n ≠ k) : mapSet m k v n = m n := by
  simp [mapSet, h]

theorem setTC_tc_self (ms : ManagerState) (k : String)
    (v : Option TargetConnectionState) :
    (setTC ms k v).targetConnections k = v := by
  simp [setTC, mapSet]

theorem setTC_tc_ne (ms : ManagerState) (k : String)
    (v : Option TargetConnectionState) (n : String) (h : n ≠ k) :
    (setTC ms k v).targetConnections n = ms.targetConnections n := by
  simp [setTC, mapSet, h]

theorem setFC_tc (ms : ManagerState) (k : String) (v : Option (List Observer)) :
    (setFC ms k v).targetConnections = ms.targetConnections := rfl

theorem closeCAFC_tc (k : String) (c : Nat) (r : String) (ms : ManagerState) :
    ((closeAssociatedFrontendClients k c r ms).1).targetConnections
      = ms.targetConnections := by
  unfold closeAssociatedFrontendClients
  cases h : ms.frontendClients k <;> simp [h, setFC]

theorem addFrontendClient_tc (k : String) (o : Observer) (ms : ManagerState) :
    (addFrontendClient k o ms).targetConnections = ms.targetConnections := by
  unfold addFrontendClient
  dsimp only
  split <;> rfl

theorem removeFrontendClient_tc (k : String) (o : Observer)
    (ms : ManagerState) :
    (removeFrontendClient k o ms).targetConnections = ms.targetConnections := by
  unfold removeFrontendClient
  cases h : ms.frontendClients k <;> rfl

theorem sendMessageToTarget_state (k : String) (msg : String) (b : Bool)
    (ms : ManagerState) : (sendMessageToTarget k msg b ms).1 = ms := by
  unfold sendMessageToTarget
  cases hst : ms.targetConnections k with
  | none => rfl
  | some st =>
      dsimp only
      split <;> rfl

/-! Invariant machinery: GoodState is preserved by every operation of the
manager, and every session stays keyed by its own service name. -/

theorem goodState_fresh (svc : DiscoveredService) (url : String) :
    GoodState { ws := none, service := svc, targetWsUrl := url,
                reconnectTimer := none, reconnectAttempts := 0,
                isClosingIntentionally := false, liveSockets := 0 } := by
  refine ⟨by norm_num [MAX_RECONNECT_ATTEMPTS], by simp, ?_⟩
  intro d hd
  simp at hd

theorem invM_set_none {ms : ManagerState} (h : InvM ms) (k : String) :
    InvM (setTC ms k none) := by
  intro n st hl
  by_cases hnk : n = k
  · subst hnk
    rw [setTC_tc_self] at hl
    cases hl
  · rw [setTC_tc_ne _ _ _ _ hnk] at hl
    exact h n st hl

theorem invM_set_some {ms : ManagerState} {st : TargetConnectionState}
    {k : String} (h : InvM ms) (hg : GoodState st)
    (hk : st.service.name = k) : InvM (setTC ms k (some st)) := by
  intro n st' hl
  by_cases hnk : n = k
  · subst hnk
    rw [setTC_tc_self] at hl
    cases hl
    exact ⟨hg, hk⟩
  · rw [setTC_tc_ne _ _ _ _ hnk] at hl
    exact h n st' hl

theorem invM_setFC {ms : ManagerState} (h : InvM ms) (k : String)
    (v : Option (List Observer)) : InvM (setFC ms k v) := by
  intro n st hl
  exact h n st hl

theorem invM_closeCAFC {ms : ManagerState} (h : InvM ms) (k : String)
    (c : Nat) (r : String) :
    InvM (closeAssociatedFrontendClients k c r ms).1 := by
  intro n st hl
  rw [closeCAFC_tc] at hl
  exact h n st hl

theorem goodState_scheduled {st : TargetConnectionState} {rand : ℚ}
    (hlt : st.reconnectAttempts < MAX_RECONNECT_ATTEMPTS)
    (hws : st.ws ≠ some ReadyState.OPEN)
    (h0 : 0 ≤ rand) (h1 : rand < 1) :
    GoodState { st with
                reconnectAttempts := st.reconnectAttempts + 1,
                reconnectTimer :=
                  some (((min (INITIAL_RECONNECT_DELAY *
                      RECONNECT_BACKOFF_FACTOR ^ st.reconnectAttempts)
                    MAX_RECONNECT_DELAY : ℕ) : ℚ) * (9/10 + rand * (1/5))) } := by
  unfold GoodState
  dsimp only
  refine ⟨by omega, fun hx => absurd hx hws, ?_⟩
  intro d hd
  rw [Option.some.injEq] at hd
  refine ⟨by omega, 9/10 + rand * (1/5), by linarith, by linarith, ?_⟩
  rw [← hd]
  have hsub : st.reconnectAttempts + 1 - 1 = st.reconnectAttempts := by omega
  rw [hsub, mul_comm]

theorem invM_scheduleReconnect {ms : ManagerState} {k : String} {rand : ℚ}
    (h : InvM ms)
    (hws : ∀ st, ms.targetConnections k = some st →
      st.ws ≠ some ReadyState.OPEN)
    (h0 : 0 ≤ rand) (h1 : rand < 1) :
    InvM (scheduleReconnect k rand ms).1 := by
  unfold scheduleReconnect
  cases hst : ms.targetConnections k with
  | none => exact h
  | some st =>
      obtain ⟨⟨hle, hopen, htimer⟩, hname⟩ := h k st hst
      dsimp only
      split
      · split
        · exact invM_closeCAFC (invM_set_none h k) k 1011 _
        · exact h
      · next hcond =>
          have hlt : st.reconnectAttempts < MAX_RECONNECT_ATTEMPTS := by
            rcases Nat.lt_or_ge st.reconnectAttempts MAX_RECONNECT_ATTEMPTS
              with hx | hx
            · exact hx
            · exact absurd (Or.inr hx) hcond
          exact invM_set_some h
            (goodState_scheduled hlt (hws st hst) h0 h1) hname

theorem invM_connectAux {ms : ManagerState} {st : TargetConnectionState}
    {p : ConnParams} {service : DiscoveredService}
    (h : InvM ms) (hg : GoodState st) (hname : st.service.name = service.name)
    (hr0 : 0 ≤ p.r) (hr1 : p.r < 1) :
    InvM (connectToTargetAux p service ms st).1 := by
  obtain ⟨hle, hopen, htimer⟩ := hg
  unfold connectToTargetAux
  split
  · exact h
  · split
    · have hg1 : GoodState { st with ws := none } :=
        ⟨hle, by simp, htimer⟩
      split
      · exact invM_set_some h hg1 hname
      · refine invM_scheduleReconnect (invM_set_some h hg1 hname) ?_ hr0 hr1
        intro st' hl
        rw [setTC_tc_self] at hl
        cases hl
        simp
    · have h1 : InvM (setTC ms service.name
          (some { st with
                  ws := some ReadyState.CONNECTING,
                  targetWsUrl := targetUrlOf service.address,
                  isClosingIntentionally := false,
                  liveSockets := st.liveSockets + 1 })) :=
        invM_set_some h ⟨hle, by simp, htimer⟩ hname
      dsimp only
      split
      · exact invM_setFC h1 _ _
      · exact h1

theorem invM_connectToTarget {ms : ManagerState} {p : ConnParams}
    {service : DiscoveredService}
    (h : InvM ms) (hr0 : 0 ≤ p.r) (hr1 : p.r < 1) :
    InvM (connectToTarget p service ms).1 := by
  unfold connectToTarget
  cases hst : ms.targetConnections service.name with
  | none =>
      exact invM_connectAux (invM_set_some h (goodState_fresh _ _) rfl)
        (goodState_fresh _ _) rfl hr0 hr1
  | some st =>
      obtain ⟨hg, hname⟩ := h _ st hst
      exact invM_connectAux h hg hname hr0 hr1

theorem invM_addFrontendClient {ms : ManagerState} (h : InvM ms) (k : String)
    (o : Observer) : InvM (addFrontendClient k o ms) := by
  intro n st hl
  rw [addFrontendClient_tc] at hl
  exact h n st hl

theorem invM_removeFrontendClient {ms : ManagerState} (h : InvM ms)
    (k : String) (o : Observer) : InvM (removeFrontendClient k o ms) := by
  intro n st hl
  rw [removeFrontendClient_tc] at hl
  exact h n st hl

theorem invM_initializeTargetConnection {ms : ManagerState} {p : ConnParams}
    {service : DiscoveredService}
    (h : InvM ms) (hr0 : 0 ≤ p.r) (hr1 : p.r < 1) :
    InvM (initializeTargetConnection p service ms).1 := by
  unfold initializeTargetConnection
  split
  · exact h
  · cases hst : ms.targetConnections service.name with
    | none =>
        dsimp only
        exact invM_connectToTarget
          (invM_set_some h (goodState_fresh _ _) rfl) hr0 hr1
    | some st =>
        obtain ⟨⟨hle, hopen, htimer⟩, hname⟩ := h _ st hst
        dsimp only
        split
        · refine invM_connectToTarget (invM_set_some h
            ⟨by norm_num [MAX_RECONNECT_ATTEMPTS], fun _ => rfl,
              fun d hd => by simp at hd⟩ rfl) hr0 hr1
        · exact invM_set_some h ⟨hle, hopen, htimer⟩ rfl

theorem invM_closeTargetConnection {ms : ManagerState} (h : InvM ms)
    (k : String) : InvM (closeTargetConnection k ms).1 := by
  unfold closeTargetConnection
  cases hst : ms.targetConnections k with
  | none => exact h
  | some st =>
      obtain ⟨⟨hle, hopen, htimer⟩, hname⟩ := h _ st hst
      dsimp only
      split
      · refine invM_closeCAFC (invM_set_some h ?_ ?_) _ _ _
        · exact ⟨hle, fun hx => by simp at hx, fun d hd => by simp at hd⟩
        · exact hname
      · exact invM_closeCAFC (invM_set_none h k) _ _ _

theorem invM_onTargetOpen {ms : ManagerState} (h : InvM ms) (k : String) :
    InvM (onTargetOpen k ms) := by
  unfold onTargetOpen
  cases hst : ms.targetConnections k with
  | none => exact h
  | some st =>
      obtain ⟨_, hname⟩ := h _ st hst
      dsimp only
      split
      · exact invM_set_some h
          ⟨by norm_num [MAX_RECONNECT_ATTEMPTS], fun _ => rfl,
            fun d hd => by simp at hd⟩ hname
      · exact h

theorem invM_onTargetClose {ms : ManagerState} {rand : ℚ} (h : InvM ms)
    (k : String) (c : Nat) (reason : String)
    (h0 : 0 ≤ rand) (h1 : rand < 1) :
    InvM (onTargetClose k c reason rand ms).1 := by
  unfold onTargetClose
  cases hst : ms.targetConnections k with
  | none => exact h
  | some st =>
      obtain ⟨⟨hle, hopen, htimer⟩, hname⟩ := h _ st hst
      dsimp only
      split
      · exact h
      · have hA : InvM (setTC ms k
            (some { st with ws := none, liveSockets := st.liveSockets - 1 })) :=
          invM_set_some h ⟨hle, fun hx => by simp at hx, htimer⟩ hname
        split
        · exact invM_set_none hA k
        · refine invM_closeCAFC (invM_scheduleReconnect hA ?_ h0 h1) _ _ _
          intro st' hl
          rw [setTC_tc_self] at hl
          cases hl
          simp

theorem invM_onTargetError {ms : ManagerState} (h : InvM ms) (k : String)
    (msg : String) : InvM (onTargetError k msg ms).1 := by
  unfold onTargetError
  cases hst : ms.targetConnections k with
  | none => exact h
  | some st =>
      obtain ⟨⟨hle, hopen, htimer⟩, hname⟩ := h _ st hst
      dsimp only
      split
      · exact h
      · refine invM_closeCAFC (invM_set_some h ?_ ?_) _ _ _
        · exact ⟨hle, fun hx => by simp at hx, htimer⟩
        · exact hname

theorem invM_onReconnectTimer {ms : ManagerState} {p : ConnParams}
    (h : InvM ms) (k : String) (hr0 : 0 ≤ p.r) (hr1 : p.r < 1) :
    InvM (onReconnectTimer k p ms).1 := by
  unfold onReconnectTimer
  cases hst : ms.targetConnections k with
  | none => exact h
  | some st =>
      obtain ⟨⟨hle, hopen, htimer⟩, hname⟩ := h _ st hst
      dsimp only
      cases htm : st.reconnectTimer with
      | none => exact h
      | some d =>
          refine invM_connectToTarget (invM_set_some h ?_ ?_) hr0 hr1
          · exact ⟨hle, hopen, fun d' hd => by simp at hd⟩
          · exact hname

theorem invM_relayUpgrade {sys : SystemState} {p : ConnParams}
    {obs : Observer} {k : String}
    (h : InvM sys.manager) (hr0 : 0 ≤ p.r) (hr1 : p.r < 1) :
    InvM ((relayUpgrade p obs k sys).1).manager := by
  unfold relayUpgrade
  split
  · exact h
  · cases hfind : sys.storage.find? (fun s => s.name == k) with
    | none => exact h
    | some svc =>
        dsimp only
        split
        · cases hget : getOpenTargetWebSocket k sys.manager with
          | none => exact h
          | some w => exact invM_addFrontendClient h k obs
        · exact invM_initializeTargetConnection h hr0 hr1

theorem invM_healthCheckResult {sys : SystemState} {p : ConnParams}
    {k : String} {healthy : Bool}
    (h : InvM sys.manager) (hr0 : 0 ≤ p.r) (hr1 : p.r < 1) :
    InvM ((healthCheckResult k healthy p sys).1).manager := by
  unfold healthCheckResult
  cases hfind : sys.storage.find? (fun s => s.name == k) with
  | none => exact h
  | some svc =>
      cases healthy with
      | true =>
          dsimp only
          split
          · split
            · exact h
            · exact invM_initializeTargetConnection h hr0 hr1
          · next hcon => exact absurd rfl hcon
      | false =>
          dsimp only
          split
          · next hcon => exact absurd hcon (by simp)
          · split
            · exact h
            · exact invM_closeTargetConnection h k

theorem invM_mdnsServiceUp {sys : SystemState} {p : ConnParams}
    {info : DiscoveredService}
    (h : InvM sys.manager) (hr0 : 0 ≤ p.r) (hr1 : p.r < 1) :
    InvM ((mdnsServiceUp info p sys).1).manager := by
  unfold mdnsServiceUp
  dsimp only
  split
  · exact invM_initializeTargetConnection h hr0 hr1
  · exact h

theorem deleteServiceEndpoint_manager (k : String) (sys : SystemState) :
    ((deleteServiceEndpoint k sys).1).manager = sys.manager := by
  unfold deleteServiceEndpoint
  split
  · rfl
  · dsimp only
    split <;> rfl

theorem qrOK_spec {r : ℚ} (h : qrOK r = true) : 0 ≤ r ∧ r < 1 := by
  simpa [qrOK] using h

theorem invM_emptyManager : InvM emptyManager := by
  intro n st hl
  simp [emptyManager] at hl

theorem invM_step (e : Event) (sys : SystemState) (hv : e.valid = true)
    (h : InvM sys.manager) : InvM ((step e sys).1).manager := by
  cases e with
  | mdnsUp info p =>
      obtain ⟨hr0, hr1⟩ := qrOK_spec (by simpa [Event.valid, ConnParams.ok] using hv)
      exact invM_mdnsServiceUp h hr0 hr1
  | healthResult name healthy p =>
      obtain ⟨hr0, hr1⟩ := qrOK_spec (by simpa [Event.valid, ConnParams.ok] using hv)
      exact invM_healthCheckResult h hr0 hr1
  | wsOpen name => exact invM_onTargetOpen h name
  | wsClose name c reason rand =>
      obtain ⟨hr0, hr1⟩ := qrOK_spec (by simpa [Event.valid] using hv)
      exact invM_onTargetClose h name c reason hr0 hr1
  | wsError name msg => exact invM_onTargetError h name msg
  | timerFire name p =>
      obtain ⟨hr0, hr1⟩ := qrOK_spec (by simpa [Event.valid, ConnParams.ok] using hv)
      exact invM_onReconnectTimer h name hr0 hr1
  | apiDelete name =>
      have he := deleteServiceEndpoint_manager name sys
      intro n st hl
      rw [show ((step (Event.apiDelete name) sys).1).manager = sys.manager
        from he] at hl
      exact h n st hl
  | relayAttach name obs p =>
      obtain ⟨hr0, hr1⟩ := qrOK_spec (by simpa [Event.valid, ConnParams.ok] using hv)
      exact invM_relayUpgrade h hr0 hr1
  | clientDetach name obs => exact invM_removeFrontendClient h name obs
  | clientSend name payload b =>
      intro n st hl
      rw [show ((step (Event.clientSend name payload b) sys).1).manager
          = (sendMessageToTarget name payload b sys.manager).1 from rfl,
        sendMessageToTarget_state] at hl
      exact h n st hl
  | shutdown => exact invM_emptyManager

theorem invM_run : ∀ (es : List Event) (sys : SystemState),
    es.all Event.valid = true → InvM sys.manager →
    InvM (run sys es).manager := by
  intro es
  induction es with
  | nil => intro sys _ h; exact h
  | cons e es ih =>
      intro sys hall h
      rw [List.all_cons, Bool.and_eq_true] at hall
      exact ih ((step e sys).1) hall.2 (invM_step e sys hall.1 h)

theorem reachable_invM {s : SystemState} (h : Reachable s) : InvM s.manager := by
  obtain ⟨es, hv, hrun⟩ := h
  rw [← hrun]
  exact invM_run es initState hv invM_emptyManager

/-! Per-key isolation: every manager operation touches only the session of
the service it is invoked for. -/

theorem tc_scheduleReconnect_ne {n k : String} (hne : n ≠ k) (rand : ℚ)
    (ms : ManagerState) :
    ((scheduleReconnect k rand ms).1).targetConnections n
      = ms.targetConnections n := by
  unfold scheduleReconnect
  cases hst : ms.targetConnections k with
  | none => rfl
  | some st =>
      dsimp only
      split
      · split
        · rw [closeCAFC_tc, setTC_tc_ne _ _ _ _ hne]
        · rfl
      · rw [setTC_tc_ne _ _ _ _ hne]

theorem tc_connectToTargetAux_ne {n : String} {service : DiscoveredService}
    (hne : n ≠ service.name) (p : ConnParams) (ms : ManagerState)
    (st : TargetConnectionState) :
    ((connectToTargetAux p service ms st).1).targetConnections n
      = ms.targetConnections n := by
  unfold connectToTargetAux
  dsimp only
  split
  · rfl
  · split
    · split
      · rw [setTC_tc_ne _ _ _ _ hne]
      · rw [tc_scheduleReconnect_ne hne, setTC_tc_ne _ _ _ _ hne]
    · split
      · rw [setFC_tc, setTC_tc_ne _ _ _ _ hne]
      · rw [setTC_tc_ne _ _ _ _ hne]

theorem tc_connectToTarget_ne {n : String} {service : DiscoveredService}
    (hne : n ≠ service.name) (p : ConnParams) (ms : ManagerState) :
    ((connectToTarget p service ms).1).targetConnections n
      = ms.targetConnections n := by
  unfold connectToTarget
  cases hst : ms.targetConnections service.name with
  | none =>
      dsimp only
      rw [tc_connectToTargetAux_ne hne, setTC_tc_ne _ _ _ _ hne]
  | some st => exact tc_connectToTargetAux_ne hne p ms st

theorem tc_initializeTargetConnection_ne {n : String}
    {service : DiscoveredService} (hne : n ≠ service.name) (p : ConnParams)
    (ms : ManagerState) :
    ((initializeTargetConnection p service ms).1).targetConnections n
      = ms.targetConnections n := by
  unfold initializeTargetConnection
  split
  · rfl
  · cases hst : ms.targetConnections service.name with
    | none =>
        dsimp only
        rw [tc_connectToTarget_ne hne, setTC_tc_ne _ _ _ _ hne]
    | some st =>
        dsimp only
        split
        · rw [tc_connectToTarget_ne hne, setTC_tc_ne _ _ _ _ hne]
        · rw [setTC_tc_ne _ _ _ _ hne]

theorem tc_closeTargetConnection_ne {n k : String} (hne : n ≠ k)
    (ms : ManagerState) :
    ((closeTargetConnection k ms).1).targetConnections n
      = ms.targetConnections n := by
  unfold closeTargetConnection
  cases hst : ms.targetConnections k with
  | none => rfl
  | some st =>
      dsimp only
      split
      · rw [closeCAFC_tc, setTC_tc_ne _ _ _ _ hne]
      · rw [closeCAFC_tc, setTC_tc_ne _ _ _ _ hne]

theorem tc_onTargetOpen_ne {n k : String} (hne : n ≠ k) (ms : ManagerState) :
    (onTargetOpen k ms).targetConnections n = ms.targetConnections n := by
  unfold onTargetOpen
  cases hst : ms.targetConnections k with
  | none => rfl
  | some st =>
      dsimp only
      split
      · rw [setTC_tc_ne _ _ _ _ hne]
      · rfl

theorem tc_onTargetClose_ne {n k : String} (hne : n ≠ k) (c : Nat)
    (reason : String) (rand : ℚ) (ms : ManagerState) :
    ((onTargetClose k c reason rand ms).1).targetConnections n
      = ms.targetConnections n := by
  unfold onTargetClose
  cases hst : ms.targetConnections k with
  | none => rfl
  | some st =>
      dsimp only
      split
      · rfl
      · split
        · rw [setTC_tc_ne _ _ _ _ hne, setTC_tc_ne _ _ _ _ hne]
        · rw [closeCAFC_tc, tc_scheduleReconnect_ne hne,
            setTC_tc_ne _ _ _ _ hne]

theorem tc_onTargetError_ne {n k : String} (hne : n ≠ k) (msg : String)
    (ms : ManagerState) :
    ((onTargetError k msg ms).1).targetConnections n
      = ms.targetConnections n := by
  unfold onTargetError
  cases hst : ms.targetConnections k with
  | none => rfl
  | some st =>
      dsimp only
      split
      · rfl
      · rw [closeCAFC_tc, setTC_tc_ne _ _ _ _ hne]

theorem find_name_eq {l : List DiscoveredService} {k : String}
    {svc : DiscoveredService}
    (h : l.find? (fun s => s.name == k) = some svc) : svc.name = k := by
  have hp := List.find?_some h
  simpa using hp

/-! Intentional-close terminality: once a session is quiesced (gone, or
marked closingIntentionally with no pending timer), every event that is not a
re-initialization of that service keeps it quiesced; in particular no
reconnect timer is ever pending, so no reconnect timer can fire. -/

theorem quiesced_congr {ms' ms : ManagerState} {name : String}
    (h : ms'.targetConnections name = ms.targetConnections name) :
    quiesced ms' name = quiesced ms name := by
  unfold quiesced
  rw [h]

theorem quiesced_of_none {ms : ManagerState} {name : String}
    (h : ms.targetConnections name = none) : quiesced ms name = true := by
  unfold quiesced
  rw [h]

theorem quiesced_of_some {ms : ManagerState} {name : String}
    {st : TargetConnectionState} (h : ms.targetConnections name = some st)
    (hi : st.isClosingIntentionally = true) (ht : st.reconnectTimer = none) :
    quiesced ms name = true := by
  unfold quiesced
  rw [h]
  simp [hi, ht]

theorem quiesced_elim {ms : ManagerState} {name : String}
    {st : TargetConnectionState} (h : ms.targetConnections name = some st)
    (hq : quiesced ms name = true) :
    st.isClosingIntentionally = true ∧ st.reconnectTimer = none := by
  unfold quiesced at hq
  rw [h] at hq
  simp only [Bool.and_eq_true, Option.isNone_iff_eq_none] at hq
  exact hq

theorem quiesced_closeTargetConnection (k : String) (ms : ManagerState) :
    quiesced ((closeTargetConnection k ms).1) k = true := by
  unfold closeTargetConnection
  cases hst : ms.targetConnections k with
  | none => exact quiesced_of_none hst
  | some st =>
      dsimp only
      split
      · exact @quiesced_of_some _ k
          { st with
            isClosingIntentionally := true,
            reconnectTimer := none,
            ws := some ReadyState.CLOSING }
          (by rw [closeCAFC_tc, setTC_tc_self]) rfl rfl
      · refine quiesced_of_none ?_
        rw [closeCAFC_tc, setTC_tc_self]

theorem quiesced_step {sys : SystemState} {name : String} (e : Event)
    (hinv : InvM sys.manager)
    (hq : quiesced sys.manager name = true)
    (hni : e.reinitFor name = false) :
    quiesced ((step e sys).1).manager name = true := by
  cases e with
  | mdnsUp info p =>
      have hne : name ≠ info.name := by
        simp only [Event.reinitFor, beq_eq_false_iff_ne, ne_eq] at hni
        exact fun hx => hni hx.symm
      show quiesced ((mdnsServiceUp info p sys).1).manager name = true
      unfold mdnsServiceUp
      dsimp only
      split
      · exact (quiesced_congr
          (tc_initializeTargetConnection_ne hne p sys.manager)).trans hq
      · exact hq
  | healthResult n healthy p =>
      show quiesced ((healthCheckResult n healthy p sys).1).manager name = true
      unfold healthCheckResult
      cases hfind : sys.storage.find? (fun s => s.name == n) with
      | none => exact hq
      | some svc =>
          have hsvc : svc.name = n := find_name_eq hfind
          cases healthy with
          | true =>
              have hne : name ≠ n := by
                simp only [Event.reinitFor, Bool.and_true,
                  beq_eq_false_iff_ne, ne_eq] at hni
                exact fun hx => hni hx.symm
              dsimp only
              split
              · split
                · exact hq
                · refine (quiesced_congr
                    (tc_initializeTargetConnection_ne ?_ p sys.manager)).trans
                    hq
                  show name ≠ svc.name
                  rw [hsvc]
                  exact hne
              · next hcon => exact absurd rfl hcon
          | false =>
              dsimp only
              split
              · next hcon => exact absurd hcon (by simp)
              · split
                · exact hq
                · by_cases hn : name = n
                  · subst hn
                    exact quiesced_closeTargetConnection name sys.manager
                  · exact (quiesced_congr
                      (tc_closeTargetConnection_ne hn sys.manager)).trans hq
  | wsOpen n =>
      show quiesced (onTargetOpen n sys.manager) name = true
      by_cases hn : name = n
      · subst hn
        unfold onTargetOpen
        cases hst : sys.manager.targetConnections name with
        | none => exact hq
        | some st =>
            obtain ⟨hi, ht⟩ := quiesced_elim hst hq
            dsimp only
            split
            · refine quiesced_of_some (setTC_tc_self _ _ _) ?_ ?_
              · exact hi
              · rfl
            · exact hq
      · exact (quiesced_congr (tc_onTargetOpen_ne hn sys.manager)).trans hq
  | wsClose n c reason rand =>
      show quiesced ((onTargetClose n c reason rand sys.manager).1) name = true
      by_cases hn : name = n
      · subst hn
        unfold onTargetClose
        cases hst : sys.manager.targetConnections name with
        | none => exact hq
        | some st =>
            obtain ⟨hi, ht⟩ := quiesced_elim hst hq
            dsimp only
            split
            · exact hq
            · exact quiesced_of_none (setTC_tc_self _ _ _)
      · exact (quiesced_congr
          (tc_onTargetClose_ne hn c reason rand sys.manager)).trans hq
  | wsError n msg =>
      show quiesced ((onTargetError n msg sys.manager).1) name = true
      by_cases hn : name = n
      · subst hn
        unfold onTargetError
        cases hst : sys.manager.targetConnections name with
        | none => exact hq
        | some st =>
            obtain ⟨hi, ht⟩ := quiesced_elim hst hq
            dsimp only
            split
            · exact hq
            · exact @quiesced_of_some _ name { st with ws := none }
                (by rw [closeCAFC_tc, setTC_tc_self]) hi ht
      · exact (quiesced_congr (tc_onTargetError_ne hn msg sys.manager)).trans hq
  | timerFire n p =>
      show quiesced ((onReconnectTimer n p sys.manager).1) name = true
      unfold onReconnectTimer
      cases hst : sys.manager.targetConnections n with
      | none => exact hq
      | some st =>
          by_cases hn : name = n
          · subst hn
            obtain ⟨hi, ht⟩ := quiesced_elim hst hq
            dsimp only
            rw [ht]
            exact hq
          · have hkey : st.service.name = n := (hinv n st hst).2
            dsimp only
            cases htm : st.reconnectTimer with
            | none => exact hq
            | some d =>
                refine (quiesced_congr ?_).trans hq
                rw [tc_connectToTarget_ne (by rw [hkey]; exact hn),
                  setTC_tc_ne _ _ _ _ hn]
  | apiDelete n =>
      show quiesced (((deleteServiceEndpoint n sys).1)).manager name = true
      rw [deleteServiceEndpoint_manager]
      exact hq
  | relayAttach n obs p =>
      have hne : name ≠ n := by
        simp only [Event.reinitFor, beq_eq_false_iff_ne, ne_eq] at hni
        exact fun hx => hni hx.symm
      show quiesced ((relayUpgrade p obs n sys).1).manager name = true
      unfold relayUpgrade
      split
      · exact hq
      · cases hfind : sys.storage.find? (fun s => s.name == n) with
        | none => exact hq
        | some svc =>
            have hsvc : svc.name = n := find_name_eq hfind
            dsimp only
            split
            · cases hget : getOpenTargetWebSocket n sys.manager with
              | none => exact hq
              | some w =>
                  exact (quiesced_congr
                    (congrFun (addFrontendClient_tc n obs sys.manager)
                      name)).trans hq
            · refine (quiesced_congr
                (tc_initializeTargetConnection_ne ?_ p sys.manager)).trans hq
              show name ≠ svc.name
              rw [hsvc]
              exact hne
  | clientDetach n obs =>
      show quiesced (removeFrontendClient n obs sys.manager) name = true
      exact (quiesced_congr
        (congrFun (removeFrontendClient_tc n obs sys.manager) name)).trans hq
  | clientSend n payload b =>
      show quiesced ((sendMessageToTarget n payload b sys.manager).1) name
        = true
      rw [sendMessageToTarget_state]
      exact hq
  | shutdown => exact quiesced_of_none rfl

theorem quiesced_run {name : String} : ∀ (es : List Event) (sys : SystemState),
    es.all Event.valid = true → (∀ e ∈ es, e.reinitFor name = false) →
    InvM sys.manager → quiesced sys.manager name = true →
    quiesced (run sys es).manager name = true := by
  intro es
  induction es with
  | nil => intro sys _ _ _ hq; exact hq
  | cons e es ih =>
      intro sys hall hni hinv hq
      rw [List.all_cons, Bool.and_eq_true] at hall
      exact ih ((step e sys).1) hall.2
        (fun e' he' => hni e' (List.mem_cons_of_mem e he'))
        (invM_step e sys hall.1 hinv)
        (quiesced_step e hinv hq (hni e (List.mem_cons_self e es)))

/-! Characterizations of the manager operations under specific guards, used
to settle the individual claims. -/

theorem wsActive_false_iff (x : Option ReadyState) :
    wsActive x = false ↔
      x = none ∨ x = some ReadyState.CLOSED ∨ x = some ReadyState.CLOSING := by
  rcases x with _ | r
  · simp [wsActive]
  · cases r <;> simp [wsActive, isLive]

theorem closeCAFC_some {ms : ManagerState} {k : String} {l : List Observer}
    (h : ms.frontendClients k = some l) (c : Nat) (r : String) :
    closeAssociatedFrontendClients k c r ms
      = (setFC ms k none,
         l.filterMap (fun o =>
           if isLive o.readyState then
             some (Effect.closeObserver o.id c r)
           else none)) := by
  unfold closeAssociatedFrontendClients
  rw [h]

theorem closeCAFC_none {ms : ManagerState} {k : String}
    (h : ms.frontendClients k = none) (c : Nat) (r : String) :
    closeAssociatedFrontendClients k c r ms = (ms, []) := by
  unfold closeAssociatedFrontendClients
  rw [h]

theorem closeCAFC_fc_self (k : String) (c : Nat) (r : String)
    (ms : ManagerState) :
    ((closeAssociatedFrontendClients k c r ms).1).frontendClients k = none := by
  cases hfc : ms.frontendClients k with
  | none => rw [closeCAFC_none hfc]; exact hfc
  | some l =>
      rw [closeCAFC_some hfc]
      show mapSet ms.frontendClients k none k = none
      rw [mapSet_self]

theorem closeCAFC_mem {ms : ManagerState} {k : String} {l : List Observer}
    {o : Observer}
    (hfc : ms.frontendClients k = some l) (ho : o ∈ l)
    (hl : isLive o.readyState = true) (c : Nat) (r : String) :
    Effect.closeObserver o.id c r
      ∈ (closeAssociatedFrontendClients k c r ms).2 := by
  rw [closeCAFC_some hfc]
  exact List.mem_filterMap.mpr ⟨o, ho, by rw [hl]; simp⟩

theorem scheduleReconnect_lt {ms : ManagerState} {k : String} {rand : ℚ}
    {st : TargetConnectionState}
    (hst : ms.targetConnections k = some st)
    (hint : st.isClosingIntentionally = false)
    (hlt : st.reconnectAttempts < MAX_RECONNECT_ATTEMPTS) :
    scheduleReconnect k rand ms
      = (setTC ms k (some { st with
          reconnectAttempts := st.reconnectAttempts + 1,
          reconnectTimer := some
            (((min (INITIAL_RECONNECT_DELAY *
                RECONNECT_BACKOFF_FACTOR ^ st.reconnectAttempts)
              MAX_RECONNECT_DELAY : ℕ) : ℚ) * (9/10 + rand * (1/5))) }), []) := by
  unfold scheduleReconnect
  rw [hst]
  dsimp only
  rw [if_neg (not_or.mpr ⟨by simp [hint], by omega⟩)]

theorem scheduleReconnect_geq {ms : ManagerState} {k : String} {rand : ℚ}
    {st : TargetConnectionState}
    (hst : ms.targetConnections k = some st)
    (hge : MAX_RECONNECT_ATTEMPTS ≤ st.reconnectAttempts) :
    scheduleReconnect k rand ms
      = closeAssociatedFrontendClients k 1011
          ("Target service " ++ k ++ " unreachable after multiple retries")
          (setTC ms k none) := by
  unfold scheduleReconnect
  rw [hst]
  dsimp only
  rw [if_pos (Or.inr hge), if_pos hge]

theorem connectToTarget_started {p : ConnParams} {service : DiscoveredService}
    {ms : ManagerState} {st : TargetConnectionState}
    (hst : ms.targetConnections service.name = some st)
    (hno : wsActive st.ws = false)
    (hfail : p.ctorFail = false) :
    (connectToTarget p service ms).1.targetConnections service.name
      = some { st with
               ws := some ReadyState.CONNECTING,
               targetWsUrl := targetUrlOf service.address,
               isClosingIntentionally := false,
               liveSockets := st.liveSockets + 1 } := by
  have hcond : ¬(st.ws = some ReadyState.CONNECTING
      ∨ st.ws = some ReadyState.OPEN) := by
    intro hx
    rcases hx with hx | hx <;> rw [hx] at hno <;> simp [wsActive, isLive] at hno
  unfold connectToTarget
  rw [hst]
  dsimp only
  unfold connectToTargetAux
  rw [if_neg hcond, if_neg (by simp [hfail])]
  dsimp only
  split
  · show (setFC _ _ _).targetConnections _ = _
    rw [setFC_tc, setTC_tc_self]
  · rw [setTC_tc_self]

theorem initialize_fresh {p : ConnParams} {service : DiscoveredService}
    {ms : ManagerState}
    (hname : service.name ≠ "") (haddr : service.address ≠ "")
    (hnone : ms.targetConnections service.name = none)
    (hfail : p.ctorFail = false) :
    (initializeTargetConnection p service ms).1.targetConnections service.name
      = some { ws := some ReadyState.CONNECTING, service := service,
               targetWsUrl := targetUrlOf service.address,
               reconnectTimer := none, reconnectAttempts := 0,
               isClosingIntentionally := false, liveSockets := 1 } := by
  unfold initializeTargetConnection
  rw [if_neg (by simp [hname, haddr]), hnone]
  dsimp only
  exact connectToTarget_started (setTC_tc_self _ _ _) (by simp [wsActive]) hfail

theorem initialize_terminal {p : ConnParams} {service : DiscoveredService}
    {ms : ManagerState} {st : TargetConnectionState}
    (hname : service.name ≠ "") (haddr : service.address ≠ "")
    (hst : ms.targetConnections service.name = some st)
    (hterm : wsActive st.ws = false)
    (hfail : p.ctorFail = false) :
    (initializeTargetConnection p service ms).1.targetConnections service.name
      = some { st with
               ws := some ReadyState.CONNECTING, service := service,
               targetWsUrl := targetUrlOf service.address,
               reconnectTimer := none, reconnectAttempts := 0,
               isClosingIntentionally := false,
               liveSockets := st.liveSockets + 1 } := by
  unfold initializeTargetConnection
  rw [if_neg (by simp [hname, haddr]), hst]
  dsimp only
  rw [if_pos (show st.ws = none ∨ st.ws = some ReadyState.CLOSED
      ∨ st.ws = some ReadyState.CLOSING
    from (wsActive_false_iff st.ws).mp hterm)]
  exact connectToTarget_started (setTC_tc_self _ _ _) hterm hfail

theorem initialize_active {p : ConnParams} {service : DiscoveredService}
    {ms : ManagerState} {st : TargetConnectionState}
    (hname : service.name ≠ "") (haddr : service.address ≠ "")
    (hst : ms.targetConnections service.name = some st)
    (hact : wsActive st.ws = true) :
    initializeTargetConnection p service ms
      = (setTC ms service.name
          (some { st with
                  service := service,
                  targetWsUrl := targetUrlOf service.address,
                  isClosingIntentionally := false }), []) := by
  unfold initializeTargetConnection
  rw [if_neg (by simp [hname, haddr]), hst]
  dsimp only
  rw [if_neg (by
    intro hx
    rcases hx with hx | hx | hx <;>
      rw [show ({ st with
          service := service,
          targetWsUrl := targetUrlOf service.address,
          isClosingIntentionally := false } : TargetConnectionState).ws
        = st.ws from rfl] at hx <;>
      rw [hx] at hact <;> simp [wsActive, isLive] at hact)]

theorem closeTargetConnection_active {ms : ManagerState} {k : String}
    {st : TargetConnectionState}
    (hst : ms.targetConnections k = some st)
    (hact : wsActive st.ws = true) :
    closeTargetConnection k ms
      = ((closeAssociatedFrontendClients k 1000
            "Target service removed or marked down"
            (setTC ms k (some { st with
              isClosingIntentionally := true,
              reconnectTimer := none,
              ws := some ReadyState.CLOSING }))).1,
         Effect.closeUpstream k 1000 "Service removed or marked down"
           :: (closeAssociatedFrontendClients k 1000
                "Target service removed or marked down"
                (setTC ms k (some { st with
                  isClosingIntentionally := true,
                  reconnectTimer := none,
                  ws := some ReadyState.CLOSING }))).2) := by
  unfold closeTargetConnection
  rw [hst]
  dsimp only
  rw [if_pos (show wsActive st.ws = true from hact)]

theorem closeTargetConnection_inactive {ms : ManagerState} {k : String}
    {st : TargetConnectionState}
    (hst : ms.targetConnections k = some st)
    (hact : wsActive st.ws = false) :
    closeTargetConnection k ms
      = closeAssociatedFrontendClients k 1000
          "Target service removed or marked down" (setTC ms k none) := by
  unfold closeTargetConnection
  rw [hst]
  dsimp only
  rw [if_neg (show ¬ wsActive st.ws = true by simp [hact])]

theorem onTargetClose_unexpected {ms : ManagerState} {k : String}
    {st : TargetConnectionState} {c : Nat} {reason : String} {rand : ℚ}
    (hst : ms.targetConnections k = some st)
    (hint : st.isClosingIntentionally = false)
    (hlive : st.liveSockets ≠ 0) :
    onTargetClose k c reason rand ms
      = ((closeAssociatedFrontendClients k 1011
            ("Target service " ++ k ++ " disconnected: " ++ reason)
            (scheduleReconnect k rand
              (setTC ms k (some { st with
                ws := none, liveSockets := st.liveSockets - 1 }))).1).1,
         (scheduleReconnect k rand
            (setTC ms k (some { st with
              ws := none, liveSockets := st.liveSockets - 1 }))).2
           ++ (closeAssociatedFrontendClients k 1011
                ("Target service " ++ k ++ " disconnected: " ++ reason)
                (scheduleReconnect k rand
                  (setTC ms k (some { st with
                    ws := none, liveSockets := st.liveSockets - 1 }))).1).2) := by
  unfold onTargetClose
  rw [hst]
  dsimp only
  rw [if_neg hlive, if_neg (by simp [hint])]

theorem onTargetClose_intentional {ms : ManagerState} {k : String}
    {st : TargetConnectionState} {c : Nat} {reason : String} {rand : ℚ}
    (hst : ms.targetConnections k = some st)
    (hint : st.isClosingIntentionally = true)
    (hlive : st.liveSockets ≠ 0) :
    onTargetClose k c reason rand ms
      = (setTC (setTC ms k (some { st with
            ws := none, liveSockets := st.liveSockets - 1 })) k none, []) := by
  unfold onTargetClose
  rw [hst]
  dsimp only
  rw [if_neg hlive, if_pos hint]

theorem onTargetOpen_connecting {ms : ManagerState} {k : String}
    {st : TargetConnectionState}
    (hst : ms.targetConnections k = some st)
    (hconn : st.ws = some ReadyState.CONNECTING) :
    (onTargetOpen k ms).targetConnections k
      = some { st with
               ws := some ReadyState.OPEN,
               reconnectAttempts := 0,
               reconnectTimer := none } := by
  unfold onTargetOpen
  rw [hst]
  dsimp only
  rw [if_pos hconn, setTC_tc_self]

theorem healthCheckResult_down {sys : SystemState} {k : String}
    {svc : DiscoveredService} {p : ConnParams}
    (hfind : sys.storage.find? (fun s => s.name == k) = some svc)
    (hup : svc.status = some ServiceStatus.up) :
    healthCheckResult k false p sys
      = (⟨sys.storage.map (fun s =>
            if s.name == k then { s with status := some ServiceStatus.down }
            else s),
          (closeTargetConnection k sys.manager).1⟩,
         (closeTargetConnection k sys.manager).2) := by
  unfold healthCheckResult
  rw [hfind]
  dsimp only
  rw [if_neg (by rw [hup]; simp)]
  simp only [Bool.false_eq_true, if_false]

theorem getOpen_eq_open {k : String} {ms : ManagerState} {w : ReadyState}
    (h : getOpenTargetWebSocket k ms = some w) :
    getOpenTargetWebSocket k ms = some ReadyState.OPEN := by
  unfold getOpenTargetWebSocket at h ⊢
  cases hst : ms.targetConnections k with
  | none =>
      rw [hst] at h
      dsimp only at h
      exact Option.noConfusion h
  | some st =>
      rw [hst] at h
      dsimp only at h
      dsimp only
      by_cases hx : st.ws = some ReadyState.OPEN
      · rw [if_pos hx]
        exact hx
      · rw [if_neg hx] at h
        exact Option.noConfusion h

/-! Observer-set lemmas: no operation of the lifecycle manager ever adds an
observer; only addFrontendClient does. -/

theorem obsAttached_congr {msA msB : ManagerState} {n : String} {i : Nat}
    (h : msA.frontendClients n = msB.frontendClients n) :
    observerAttached msA n i = observerAttached msB n i := by
  unfold observerAttached
  rw [h]

theorem obsAttached_false_of_fc {ms : ManagerState} {n : String} {i : Nat}
    (h : ms.frontendClients n = none) : observerAttached ms n i = false := by
  unfold observerAttached
  rw [h]

theorem obsAttached_empty {ms : ManagerState} {n : String} {i : Nat}
    (h : ms.frontendClients n = some []) : observerAttached ms n i = false := by
  unfold observerAttached
  rw [h]
  rfl

theorem obsAttached_closeCAFC {ms : ManagerState} {k : String} {c : Nat}
    {r : String} {n : String} {i : Nat}
    (h : observerAttached
      ((closeAssociatedFrontendClients k c r ms).1) n i = true) :
    observerAttached ms n i = true := by
  cases hfc : ms.frontendClients k with
  | none => rw [closeCAFC_none hfc] at h; exact h
  | some l =>
      rw [closeCAFC_some hfc] at h
      by_cases hn : n = k
      · subst hn
        rw [obsAttached_false_of_fc (mapSet_self _ _ _)] at h
        exact Bool.noConfusion h
      · rwa [obsAttached_congr (mapSet_ne _ _ _ _ hn)] at h

theorem obsAttached_scheduleReconnect {ms : ManagerState} {k : String}
    {rand : ℚ} {n : String} {i : Nat}
    (h : observerAttached ((scheduleReconnect k rand ms).1) n i = true) :
    observerAttached ms n i = true := by
  unfold scheduleReconnect at h
  cases hst : ms.targetConnections k with
  | none => rw [hst] at h; exact h
  | some st =>
      rw [hst] at h
      dsimp only at h
      split at h
      · split at h
        · have h2 := obsAttached_closeCAFC h
          exact h2
        · exact h
      · exact h

theorem obsAttached_connectToTargetAux {p : ConnParams}
    {service : DiscoveredService} {ms : ManagerState}
    {st : TargetConnectionState} {n : String} {i : Nat}
    (h : observerAttached ((connectToTargetAux p service ms st).1) n i = true) :
    observerAttached ms n i = true := by
  unfold connectToTargetAux at h
  dsimp only at h
  split at h
  · exact h
  · split at h
    · split at h
      · exact h
      · have h2 := obsAttached_scheduleReconnect h
        exact h2
    · split at h
      · by_cases hn : n = service.name
        · subst hn
          rw [obsAttached_empty (mapSet_self _ _ _)] at h
          exact Bool.noConfusion h
        · rwa [obsAttached_congr (mapSet_ne _ _ _ _ hn)] at h
      · exact h

theorem obsAttached_connectToTarget {p : ConnParams}
    {service : DiscoveredService} {ms : ManagerState} {n : String} {i : Nat}
    (h : observerAttached ((connectToTarget p service ms).1) n i = true) :
    observerAttached ms n i = true := by
  unfold connectToTarget at h
  cases hst : ms.targetConnections service.name with
  | none =>
      rw [hst] at h
      dsimp only at h
      have h2 := obsAttached_connectToTargetAux h
      exact h2
  | some st =>
      rw [hst] at h
      dsimp only at h
      exact obsAttached_connectToTargetAux h

theorem obsAttached_initialize {p : ConnParams}
    {service : DiscoveredService} {ms : ManagerState} {n : String} {i : Nat}
    (h : observerAttached
      ((initializeTargetConnection p service ms).1) n i = true) :
    observerAttached ms n i = true := by
  unfold initializeTargetConnection at h
  split at h
  · exact h
  · cases hst : ms.targetConnections service.name with
    | none =>
        rw [hst] at h
        dsimp only at h
        have h2 := obsAttached_connectToTarget h
        exact h2
    | some st =>
        rw [hst] at h
        dsimp only at h
        split at h
        · have h2 := obsAttached_connectToTarget h
          exact h2
        · exact h

theorem obsAttached_addFrontendClient_self (k : String) (o : Observer)
    (ms : ManagerState) :
    observerAttached (addFrontendClient k o ms) k o.id = true := by
  unfold addFrontendClient
  dsimp only
  split
  · next hany =>
      unfold observerAttached
      rw [show ManagerState.frontendClients
            (setFC ms k (some ((ms.frontendClients k).getD []))) k
          = some ((ms.frontendClients k).getD []) from mapSet_self _ _ _]
      exact hany
  · unfold observerAttached
    rw [show ManagerState.frontendClients
          (setFC ms k (some ((ms.frontendClients k).getD [] ++ [o]))) k
        = some ((ms.frontendClients k).getD [] ++ [o]) from mapSet_self _ _ _]
    simp

theorem getLast?_of_suffix {α : Type} {s t : List α} (h : s <:+ t)
    (hne : s ≠ []) : s.getLast? = t.getLast? := by
  obtain ⟨pre, rfl⟩ := h
  exact (List.getLast?_append_of_ne_nil pre hne).symm

/-! The claims. -/

/-- Claim C1 (confirmed): in every reachable state, every session has at
most MAX_RECONNECT_ATTEMPTS = 10 recorded reconnect attempts, and every
pending backoff timer for attempt k carries a delay of
jitter * min(1000ms * 2^(k-1), 30000ms) for some jitter in [0.9, 1.1)
⊆ [0.9, 1.1] (delays in milliseconds; the spec states the same formula in
seconds). -/
theorem claim_C1 (s : SystemState) (hs : Reachable s) (name : String)
    (st : TargetConnectionState)
    (hst : s.manager.targetConnections name = some st) :
    st.reconnectAttempts ≤ MAX_RECONNECT_ATTEMPTS ∧
    ∀ d, st.reconnectTimer = some d →
      1 ≤ st.reconnectAttempts ∧
      ∃ j : ℚ, 9/10 ≤ j ∧ j < 11/10 ∧
        d = j * ((min (INITIAL_RECONNECT_DELAY *
          RECONNECT_BACKOFF_FACTOR ^ (st.reconnectAttempts - 1))
          MAX_RECONNECT_DELAY : ℕ) : ℚ) := by
  obtain ⟨⟨h1, _, h3⟩, _⟩ := reachable_invM hs name st hst
  exact ⟨h1, h3⟩

/-- Witness for claim C1, at the reachable state obtained by discovering
alpha and losing the first connection attempt: the session exists there and
satisfies the attempt bound and the delay formula for its pending timer. -/
theorem claim_C1_witness :
    ∃ st, (run initState traceTimerPending).manager.targetConnections "alpha"
        = some st ∧
      st.reconnectAttempts ≤ MAX_RECONNECT_ATTEMPTS ∧
      ∀ d, st.reconnectTimer = some d →
        1 ≤ st.reconnectAttempts ∧
        ∃ j : ℚ, 9/10 ≤ j ∧ j < 11/10 ∧
          d = j * ((min (INITIAL_RECONNECT_DELAY *
            RECONNECT_BACKOFF_FACTOR ^ (st.reconnectAttempts - 1))
            MAX_RECONNECT_DELAY : ℕ) : ℚ) := by
  cases hsome : (run initState traceTimerPending).manager.targetConnections
      "alpha" with
  | none =>
      have hs : ((run initState traceTimerPending).manager.targetConnections
          "alpha").isSome = true := by decide
      rw [hsome] at hs
      exact Bool.noConfusion hs
  | some st =>
      exact ⟨st, rfl,
        claim_C1 _ ⟨traceTimerPending, by decide, rfl⟩ "alpha" st hsome⟩

/-- Claim C3 (corrected): the claimed invariant is about an OPEN handle, not
a merely non-null one.  In every reachable state a session whose socket is
OPEN has reconnectAttempts = 0, and the open handler resets the attempt
counter and cancels the pending timer.  (A non-null CONNECTING handle can
coexist with a positive attempt count, see the counterexample.) -/
theorem claim_C3 :
    (∀ (s : SystemState), Reachable s →
      ∀ (name : String) (st : TargetConnectionState),
        s.manager.targetConnections name = some st →
        st.ws = some ReadyState.OPEN → st.reconnectAttempts = 0) ∧
    (∀ (ms : ManagerState) (name : String) (st : TargetConnectionState),
      ms.targetConnections name = some st →
      st.ws = some ReadyState.CONNECTING →
      (onTargetOpen name ms).targetConnections name
        = some { st with
                 ws := some ReadyState.OPEN,
                 reconnectAttempts := 0,
                 reconnectTimer := none }) := by
  constructor
  · intro s hs name st hst hopen
    exact ((reachable_invM hs) name st hst).1.2.1 hopen
  · intro ms name st hst hconn
    exact onTargetOpen_connecting hst hconn

/-- Witness for claim C3: the open state reached by discovery followed by a
successful open has zero attempts, and the open handler on a session that is
CONNECTING with 3 recorded attempts resets them to 0. -/
theorem claim_C3_witness :
    ((run initState traceOpen).manager.targetConnections "alpha"
        = some stOpenRun ∧
      stOpenRun.reconnectAttempts = 0) ∧
    (onTargetOpen "alpha" msConnA).targetConnections "alpha"
      = some { stConnA with
               ws := some ReadyState.OPEN,
               reconnectAttempts := 0,
               reconnectTimer := none } := by
  have hst : (run initState traceOpen).manager.targetConnections "alpha"
      = some stOpenRun := by decide
  refine ⟨⟨hst, claim_C3.1 _ ⟨traceOpen, by decide, rfl⟩ "alpha" stOpenRun hst
      (by decide)⟩,
    claim_C3.2 msConnA "alpha" stConnA (by decide) (by decide)⟩

/-- Counterexample to claim C3 as stated: in the reachable state where the
reconnect timer has fired and the retry socket is still CONNECTING, the
upstream handle is non-null while reconnectAttempts = 1 ≠ 0. -/
theorem claim_C3_cex :
    Reachable (run initState traceConnecting) ∧
    (run initState traceConnecting).manager.targetConnections "alpha"
      = some stConnRun ∧
    stConnRun.ws ≠ none ∧ stConnRun.reconnectAttempts = 1 :=
  ⟨⟨traceConnecting, by decide, rfl⟩, by decide, by decide, by decide⟩

/-- Claim C7 (corrected): a message sent towards a service whose upstream
socket is not OPEN is dropped — the manager state is unchanged (nothing is
buffered) and the only output is a server-side log line; no effect is
directed at any observer, so the sending observer is NOT informed (the
claim asserted it would be). -/
theorem claim_C7 (k : String) (payload : String) (b : Bool)
    (ms : ManagerState)
    (hnop : ∀ st, ms.targetConnections k = some st →
      st.ws ≠ some ReadyState.OPEN) :
    sendMessageToTarget k payload b ms
      = (ms, [Effect.logWarn ("Cannot send message to target " ++ k
          ++ ": WebSocket not open or not found.")]) ∧
    ∀ i, ((sendMessageToTarget k payload b ms).2.any
        (fun e => e.isObserverDirected i)) = false := by
  have heq : sendMessageToTarget k payload b ms
      = (ms, [Effect.logWarn ("Cannot send message to target " ++ k
          ++ ": WebSocket not open or not found.")]) := by
    unfold sendMessageToTarget
    cases hst : ms.targetConnections k with
    | none => rfl
    | some st =>
        dsimp only
        rw [if_neg (hnop st hst)]
  refine ⟨heq, ?_⟩
  intro i
  rw [heq]
  rfl

/-- Witness for claim C7: with the alpha session CONNECTING and observer 7
attached, a send is dropped with only a log line and no observer-directed
effect. -/
theorem claim_C7_witness :
    sendMessageToTarget "alpha" "list" false msConnA
      = (msConnA, [Effect.logWarn
          "Cannot send message to target alpha: WebSocket not open or not found."]) ∧
    ((sendMessageToTarget "alpha" "list" false msConnA).2.any
      (fun e => e.isObserverDirected 7)) = false := by
  have hnop : ∀ st, msConnA.targetConnections "alpha" = some st →
      st.ws ≠ some ReadyState.OPEN := by
    intro st hst
    have h2 : some stConnA = some st := hst
    cases h2
    decide
  exact ⟨(claim_C7 "alpha" "list" false msConnA hnop).1,
    (claim_C7 "alpha" "list" false msConnA hnop).2 7⟩

/-- Counterexample to claim C7 as stated: the sending observer (id 7) is
never informed — no effect of the call is directed at it; the only output
is a server-side warning, and the state is unchanged. -/
theorem claim_C7_cex :
    (sendMessageToTarget "alpha" "list" false msConnA).1 = msConnA ∧
    (sendMessageToTarget "alpha" "list" false msConnA).2
      = [Effect.logWarn
          "Cannot send message to target alpha: WebSocket not open or not found."] ∧
    ((sendMessageToTarget "alpha" "list" false msConnA).2.any
      (fun e => e.isObserverDirected 7)) = false :=
  ⟨rfl, by decide, by decide⟩

/-- Claim C8 (corrected): initialize on a session whose handle is CONNECTING
or OPEN starts no new connection attempt (no effects) and leaves the
connection fields (ws, reconnectTimer, reconnectAttempts) unchanged, but it
is not a full no-op: it overwrites the stored service copy and target URL
and clears closingIntentionally. -/
theorem claim_C8 (p : ConnParams) (service : DiscoveredService)
    (ms : ManagerState) (st : TargetConnectionState)
    (hname : service.name ≠ "") (haddr : service.address ≠ "")
    (hst : ms.targetConnections service.name = some st)
    (hact : wsActive st.ws = true) :
    (initializeTargetConnection p service ms).2 = [] ∧
    (initializeTargetConnection p service ms).1.targetConnections service.name
      = some { st with
               service := service,
               targetWsUrl := targetUrlOf service.address,
               isClosingIntentionally := false } ∧
    (∀ n, n ≠ service.name →
      (initializeTargetConnection p service ms).1.targetConnections n
        = ms.targetConnections n) ∧
    (initializeTargetConnection p service ms).1.frontendClients
      = ms.frontendClients := by
  rw [initialize_active hname haddr hst hact]
  refine ⟨rfl, setTC_tc_self _ _ _, ?_, rfl⟩
  intro n hn
  exact setTC_tc_ne _ _ _ _ hn

/-- Witness for claim C8: re-initializing the open alpha session with a new
address updates only the stored copy. -/
theorem claim_C8_witness :
    (initializeTargetConnection p0 svcB msA).2 = [] ∧
    (initializeTargetConnection p0 svcB msA).1.targetConnections "alpha"
      = some { stOpenA with
               service := svcB,
               targetWsUrl := targetUrlOf "172.50.0.9",
               isClosingIntentionally := false } ∧
    (initializeTargetConnection p0 svcB msA).1.frontendClients
      = msA.frontendClients := by
  have h := claim_C8 p0 svcB msA stOpenA (by decide) (by decide) (by decide)
    (by decide)
  exact ⟨h.1, h.2.1, h.2.2.2⟩

/-- Counterexample to claim C8 as stated: initialize while OPEN is not a
no-op — re-announcing alpha at address 172.50.0.9 changes the session's
stored service copy. -/
theorem claim_C8_cex :
    ((initializeTargetConnection p0 svcB msA).1.targetConnections "alpha").map
        (fun st => st.service.address) = some "172.50.0.9" ∧
    (initializeTargetConnection p0 svcB msA).1.targetConnections "alpha"
      ≠ msA.targetConnections "alpha" :=
  ⟨by decide, by decide⟩

/-- Claim C9 (confirmed): the interceptor appends the record
(timestamp, payload-or-base64, isBinary); the stored list's length is
min(old+1, 500), never above capacity 500; the result is a suffix of the
appended list (oldest evicted first), the new record is always last, and
below capacity nothing is evicted. -/
theorem claim_C9 (b64 : String → String) (now : Nat) (payload : String)
    (isBinary : Bool) (l : List InterceptedMessage) :
    (interceptMessage b64 now payload isBinary l).length
      = min (l.length + 1) MAX_MESSAGES_PER_SERVICE ∧
    (interceptMessage b64 now payload isBinary l)
      <:+ (l ++ [⟨now, if isBinary then b64 payload else payload, isBinary⟩]) ∧
    (interceptMessage b64 now payload isBinary l).getLast?
      = some ⟨now, if isBinary then b64 payload else payload, isBinary⟩ ∧
    (l.length < MAX_MESSAGES_PER_SERVICE →
      interceptMessage b64 now payload isBinary l
        = l ++ [⟨now, if isBinary then b64 payload else payload, isBinary⟩]) := by
  have hM : 0 < MAX_MESSAGES_PER_SERVICE := by
    norm_num [MAX_MESSAGES_PER_SERVICE]
  unfold interceptMessage
  dsimp only
  generalize (⟨now, if isBinary then b64 payload else payload, isBinary⟩
    : InterceptedMessage) = m
  split
  · next hgt =>
      rw [List.length_append] at hgt
      simp only [List.length_singleton] at hgt
      refine ⟨?_, List.drop_suffix _ _, ?_, ?_⟩
      · rw [List.length_drop, List.length_append]
        simp only [List.length_singleton]
        omega
      · have hne : (l ++ [m]).drop
            ((l ++ [m]).length - MAX_MESSAGES_PER_SERVICE) ≠ [] := by
          intro hnil
          have hlen0 := congrArg List.length hnil
          rw [List.length_drop, List.length_append] at hlen0
          simp only [List.length_singleton, List.length_nil] at hlen0
          omega
        rw [getLast?_of_suffix (List.drop_suffix _ _) hne]
        simp
      · intro hlt
        omega
  · next hle =>
      rw [List.length_append] at hle
      simp only [List.length_singleton, not_lt] at hle
      refine ⟨?_, List.suffix_refl _, by simp, fun _ => rfl⟩
      rw [List.length_append]
      simp only [List.length_singleton]
      omega

/-- Witness for claim C9 at a concrete input: intercepting on an empty store
yields exactly the singleton list of the new record. -/
theorem claim_C9_witness :
    (interceptMessage id 5 "tick" false []).length
      = min (0 + 1) MAX_MESSAGES_PER_SERVICE ∧
    interceptMessage id 5 "tick" false [] = [⟨5, "tick", false⟩] := by
  have h := claim_C9 id 5 "tick" false []
  refine ⟨h.1, ?_⟩
  have h4 := h.2.2.2 (by norm_num [MAX_MESSAGES_PER_SERVICE])
  exact h4

/-- Claim C2 (corrected): intentional close quiesces the session (marked
closingIntentionally with no pending timer, or already removed); every
subsequent event that is not a re-initialization of that service keeps it
quiesced, so no reconnect timer is pending and a timer-fire event is a
no-op.  A subsequent serviceAppeared starts a fresh session with
reconnectAttempts = 0 only when it changes the stored record (new name or
changed address/port) and the old session is gone or terminal; an
unchanged re-announcement is ignored (see the counterexample). -/
theorem claim_C2 :
    (∀ (k : String) (ms : ManagerState),
      quiesced ((closeTargetConnection k ms).1) k = true) ∧
    (∀ (name : String) (es : List Event) (sys : SystemState),
      es.all Event.valid = true →
      (∀ e ∈ es, e.reinitFor name = false) →
      InvM sys.manager → quiesced sys.manager name = true →
      quiesced (run sys es).manager name = true) ∧
    (∀ (name : String) (p : ConnParams) (sys : SystemState),
      quiesced sys.manager name = true →
      (step (Event.timerFire name p) sys).1 = sys) ∧
    (∀ (p : ConnParams) (info : DiscoveredService) (sys : SystemState),
      p.ctorFail = false → info.name ≠ "" → info.address ≠ "" →
      (updateStoredServices info sys.storage).2 = true →
      terminalFor sys.manager info.name = true →
      ∃ st', ((mdnsServiceUp info p sys).1).manager.targetConnections info.name
          = some st' ∧
        st'.reconnectAttempts = 0 ∧ st'.isClosingIntentionally = false ∧
        st'.ws = some ReadyState.CONNECTING ∧ st'.reconnectTimer = none) := by
  refine ⟨?_, ?_, ?_, ?_⟩
  · intro k ms
    exact quiesced_closeTargetConnection k ms
  · intro name es sys hv hni hinv hq
    exact quiesced_run es sys hv hni hinv hq
  · intro name p sys hq
    have hm : (onReconnectTimer name p sys.manager).1 = sys.manager := by
      unfold onReconnectTimer
      cases hst : sys.manager.targetConnections name with
      | none => rfl
      | some st =>
          obtain ⟨hi, ht⟩ := quiesced_elim hst hq
          dsimp only
          rw [ht]
    show (⟨sys.storage, (onReconnectTimer name p sys.manager).1⟩
      : SystemState) = sys
    rw [hm]
  · intro p info sys hfail hname haddr hupd hterm
    unfold mdnsServiceUp
    dsimp only
    rw [if_pos hupd]
    unfold terminalFor at hterm
    cases hst : sys.manager.targetConnections info.name with
    | none =>
        exact ⟨_, initialize_fresh hname haddr hst hfail, rfl, rfl, rfl, rfl⟩
    | some st =>
        rw [hst] at hterm
        dsimp only at hterm
        have hterm2 : wsActive st.ws = false := by
          cases hws : wsActive st.ws
          · rfl
          · rw [hws] at hterm
            exact Bool.noConfusion hterm
        exact ⟨_, initialize_terminal hname haddr hst hterm2 hfail,
          rfl, rfl, rfl, rfl⟩

/-- Witness for claim C2: the closed alpha session is quiesced; it stays
quiesced across a timer-fire and a socket-error event; a timer-fire is a
no-op; and a re-announcement at a changed address starts a fresh session
with zero attempts. -/
theorem claim_C2_witness :
    quiesced ((closeTargetConnection "alpha" msA).1) "alpha" = true ∧
    quiesced (run (run initState traceClosed)
        [Event.timerFire "alpha" p0, Event.wsError "alpha" "boom"]).manager
      "alpha" = true ∧
    (step (Event.timerFire "alpha" p0) (run initState traceClosed)).1
      = run initState traceClosed ∧
    (∃ st', ((mdnsServiceUp svcB p0
          (run initState traceClosed)).1).manager.targetConnections "alpha"
        = some st' ∧
      st'.reconnectAttempts = 0 ∧ st'.isClosingIntentionally = false ∧
      st'.ws = some ReadyState.CONNECTING ∧ st'.reconnectTimer = none) := by
  refine ⟨claim_C2.1 "alpha" msA, ?_, ?_, ?_⟩
  · exact claim_C2.2.1 "alpha"
      [Event.timerFire "alpha" p0, Event.wsError "alpha" "boom"]
      (run initState traceClosed) (by decide) (by decide)
      (reachable_invM ⟨traceClosed, by decide, rfl⟩) (by decide)
  · exact claim_C2.2.2.1 "alpha" p0 (run initState traceClosed) (by decide)
  · exact claim_C2.2.2.2 p0 svcB (run initState traceClosed) rfl
      (by decide) (by decide) (by decide) (by decide)

/-- Counterexample to claim C2 as stated: after the health checker closes
alpha and the close completes, a serviceAppeared for the same name whose
stored record is unchanged is ignored (updateStoredServices reports no
change), so no fresh session is started at all — there is no session with
reconnectAttempts = 0. -/
theorem claim_C2_cex :
    (run initState traceClosed).manager.targetConnections "alpha" = none ∧
    (run initState traceCloseThenAnnounce).manager.targetConnections "alpha"
      = none ∧
    List.all traceCloseThenAnnounce Event.valid = true :=
  ⟨by decide, by decide, by decide⟩

/-- Claim C4 (corrected): a health-check transition of a service from
reachable to unreachable forcibly closes the session via the intentional
close path: the session is marked closingIntentionally with no timer, the
open/connecting handle is closed with normal code 1000, and the probe
schedules no reconnect; the resulting close event then takes the
intentional branch of the close handler — it deletes the session and does
NOT schedule a reconnect (the claim said reconnection was left to the
normal unexpected-close path). -/
theorem claim_C4 (sys : SystemState) (k : String) (svc : DiscoveredService)
    (st : TargetConnectionState) (p : ConnParams) (c2 : Nat) (r2 : String)
    (rand2 : ℚ)
    (hfind : sys.storage.find? (fun s => s.name == k) = some svc)
    (hup : svc.status = some ServiceStatus.up)
    (hst : sys.manager.targetConnections k = some st)
    (hact : wsActive st.ws = true)
    (hlive : st.liveSockets ≠ 0) :
    ((step (Event.healthResult k false p) sys).1).manager.targetConnections k
      = some { st with
               isClosingIntentionally := true,
               reconnectTimer := none,
               ws := some ReadyState.CLOSING } ∧
    Effect.closeUpstream k 1000 "Service removed or marked down"
      ∈ (step (Event.healthResult k false p) sys).2 ∧
    ManagerState.targetConnections ((step (Event.wsClose k c2 r2 rand2)
        ((step (Event.healthResult k false p) sys).1)).1).manager k
      = none := by
  have h1 : ((step (Event.healthResult k false p) sys).1).manager
      = (closeTargetConnection k sys.manager).1 := by
    show ((healthCheckResult k false p sys).1).manager = _
    rw [healthCheckResult_down hfind hup]
  have h2 : (step (Event.healthResult k false p) sys).2
      = (closeTargetConnection k sys.manager).2 := by
    show ((healthCheckResult k false p sys)).2 = _
    rw [healthCheckResult_down hfind hup]
  have hclose := closeTargetConnection_active hst hact
  have hA : ((closeTargetConnection k sys.manager).1).targetConnections k
      = some { st with
               isClosingIntentionally := true,
               reconnectTimer := none,
               ws := some ReadyState.CLOSING } := by
    rw [hclose, closeCAFC_tc, setTC_tc_self]
  refine ⟨?_, ?_, ?_⟩
  · rw [h1]
    exact hA
  · rw [h2, hclose]
    exact List.mem_cons_self _ _
  · show ManagerState.targetConnections ((onTargetClose k c2 r2 rand2
        ((step (Event.healthResult k false p) sys).1).manager).1) k = none
    have hA1 : ManagerState.targetConnections
        ((step (Event.healthResult k false p) sys).1).manager k
        = some { st with
                 isClosingIntentionally := true,
                 reconnectTimer := none,
                 ws := some ReadyState.CLOSING } := by
      rw [h1]
      exact hA
    rw [onTargetClose_intentional hA1 rfl hlive]
    exact setTC_tc_self _ _ _

/-- Witness for claim C4: alpha is stored reachable, its session is open
with a live socket; the health-down transition marks it intentional and
closes it with 1000, and the resulting close event removes the session. -/
theorem claim_C4_witness :
    ((step (Event.healthResult "alpha" false
          p0) sysA).1).manager.targetConnections "alpha"
      = some { stOpenA with
               isClosingIntentionally := true,
               reconnectTimer := none,
               ws := some ReadyState.CLOSING } ∧
    Effect.closeUpstream "alpha" 1000 "Service removed or marked down"
      ∈ (step (Event.healthResult "alpha" false p0) sysA).2 ∧
    ManagerState.targetConnections ((step (Event.wsClose "alpha" 1000
        "closed" 0)
        ((step (Event.healthResult "alpha" false p0) sysA).1)).1).manager
      "alpha" = none :=
  claim_C4 sysA "alpha" svcAup stOpenA p0 1000 "closed" 0
    (by decide) (by decide) (by decide) (by decide) (by decide)

/-- Counterexample to claim C4 as stated: starting from the initial state,
after discovery, open, health-up and then the health-down transition, the
session is marked closingIntentionally (so the forced closure is NOT
processed as an unexpected close), and once the resulting close event is
processed the session is gone — no reconnect was scheduled by the
unexpected-close path. -/
theorem claim_C4_cex :
    ((run initState [evDiscover, evOpen, Event.healthResult "alpha" true p0,
        Event.healthResult "alpha" false p0]).manager.targetConnections
        "alpha").map (fun s => (s.isClosingIntentionally,
          s.reconnectTimer.isNone)) = some (true, true) ∧
    (run initState traceClosed).manager.targetConnections "alpha" = none :=
  ⟨by decide, by decide⟩

/-- Claim C5 (corrected): the delete endpoint only removes the service from
the stored registry list and never touches the connection manager — it does
NOT trigger close(name).  closeTargetConnection itself (invoked by the
health checker, not by delete) does behave as the claim describes: it marks
closingIntentionally, cancels any pending timer, closes an open or
connecting handle with normal code 1000 (removing the session at once when
the handle is absent or terminal), and force-closes all observers with
code 1000. -/
theorem claim_C5 :
    (∀ (k : String) (sys : SystemState),
      ((deleteServiceEndpoint k sys).1).manager = sys.manager) ∧
    (∀ (k : String) (ms : ManagerState) (st : TargetConnectionState),
      ms.targetConnections k = some st →
      (wsActive st.ws = true →
        ((closeTargetConnection k ms).1).targetConnections k
          = some { st with
                   isClosingIntentionally := true,
                   reconnectTimer := none,
                   ws := some ReadyState.CLOSING } ∧
        Effect.closeUpstream k 1000 "Service removed or marked down"
          ∈ (closeTargetConnection k ms).2) ∧
      (wsActive st.ws = false →
        ((closeTargetConnection k ms).1).targetConnections k = none) ∧
      ((closeTargetConnection k ms).1).frontendClients k = none ∧
      (∀ o ∈ (ms.frontendClients k).getD [], isLive o.readyState = true →
        Effect.closeObserver o.id 1000 "Target service removed or marked down"
          ∈ (closeTargetConnection k ms).2)) := by
  constructor
  · intro k sys
    exact deleteServiceEndpoint_manager k sys
  · intro k ms st hst
    refine ⟨?_, ?_, ?_, ?_⟩
    · intro hact
      rw [closeTargetConnection_active hst hact]
      exact ⟨by rw [closeCAFC_tc, setTC_tc_self], List.mem_cons_self _ _⟩
    · intro hinact
      rw [closeTargetConnection_inactive hst hinact]
      rw [closeCAFC_tc, setTC_tc_self]
    · cases hb : wsActive st.ws with
      | false =>
          rw [closeTargetConnection_inactive hst hb]
          exact closeCAFC_fc_self _ _ _ _
      | true =>
          rw [closeTargetConnection_active hst hb]
          exact closeCAFC_fc_self _ _ _ _
    · intro o ho hl
      cases hfc : ms.frontendClients k with
      | none =>
          rw [hfc] at ho
          simp at ho
      | some l =>
          rw [hfc] at ho
          simp only [Option.getD_some] at ho
          cases hb : wsActive st.ws with
          | false =>
              rw [closeTargetConnection_inactive hst hb]
              refine closeCAFC_mem ?_ ho hl _ _
              exact hfc
          | true =>
              rw [closeTargetConnection_active hst hb]
              refine List.mem_cons_of_mem _ (closeCAFC_mem ?_ ho hl _ _)
              exact hfc

/-- Witness for claim C5: deleting alpha leaves the manager untouched, while
an actual closeTargetConnection of the open alpha session marks it
intentional, closes upstream with 1000, clears the observer set and closes
observer 7 with 1000. -/
theorem claim_C5_witness :
    ((deleteServiceEndpoint "alpha" sysA).1).manager = sysA.manager ∧
    ((closeTargetConnection "alpha" msA).1).targetConnections "alpha"
      = some { stOpenA with
               isClosingIntentionally := true,
               reconnectTimer := none,
               ws := some ReadyState.CLOSING } ∧
    ((closeTargetConnection "alpha" msA).1).frontendClients "alpha" = none ∧
    Effect.closeObserver 7 1000 "Target service removed or marked down"
      ∈ (closeTargetConnection "alpha" msA).2 := by
  have h2 := claim_C5.2 "alpha" msA stOpenA (by decide)
  exact ⟨claim_C5.1 "alpha" sysA, (h2.1 (by decide)).1, h2.2.2.1,
    h2.2.2.2 obs7 (by decide) (by decide)⟩

/-- Counterexample to claim C5 as stated: deleting alpha removes it from
storage (204), yet the manager still holds the session — not marked
closingIntentionally, upstream still OPEN — and the observer is still
attached; no close(name) was triggered. -/
theorem claim_C5_cex :
    (deleteServiceEndpoint "alpha" sysA).2 = DeleteResult.deleted ∧
    (deleteServiceEndpoint "alpha" sysA).1.storage = [] ∧
    ((deleteServiceEndpoint "alpha" sysA).1.manager.targetConnections
        "alpha").map (fun s => (s.isClosingIntentionally, s.ws))
      = some (false, some ReadyState.OPEN) ∧
    ((deleteServiceEndpoint "alpha" sysA).1.manager.frontendClients
        "alpha").map List.length = some 1 :=
  ⟨by decide, by decide, by decide, by decide⟩

/-- Claim C6 (confirmed): an observer is added to the observer set if and
only if the relay upgrade attaches it, attachment happens only while the
upstream handle is OPEN, and on any rejection (bad request 400, unknown
service 404, unavailable 503, or the 1011 close when the handle is no
longer OPEN at association time) the observer is attached nowhere — it is
never queued. -/
theorem claim_C6 (p : ConnParams) (obs : Observer) (k : String)
    (sys : SystemState)
    (hfresh : ∀ n, observerAttached sys.manager n obs.id = false) :
    ((relayUpgrade p obs k sys).2.1 = AttachResult.attached ↔
      observerAttached ((relayUpgrade p obs k sys).1).manager k obs.id
        = true) ∧
    (observerAttached ((relayUpgrade p obs k sys).1).manager k obs.id = true →
      getOpenTargetWebSocket k sys.manager = some ReadyState.OPEN) ∧
    ((relayUpgrade p obs k sys).2.1 ≠ AttachResult.attached →
      ∀ n, observerAttached ((relayUpgrade p obs k sys).1).manager n obs.id
        = false) := by
  unfold relayUpgrade
  split
  · refine ⟨⟨fun h => by simp at h, fun h => ?_⟩, fun h => ?_,
      fun _ n => hfresh n⟩
    · rw [hfresh k] at h
      exact Bool.noConfusion h
    · rw [hfresh k] at h
      exact Bool.noConfusion h
  · cases hfind : sys.storage.find? (fun s => s.name == k) with
    | none =>
        refine ⟨⟨fun h => by simp at h, fun h => ?_⟩, fun h => ?_,
          fun _ n => hfresh n⟩
        · rw [hfresh k] at h
          exact Bool.noConfusion h
        · rw [hfresh k] at h
          exact Bool.noConfusion h
    | some svc =>
        dsimp only
        split
        · cases hget : getOpenTargetWebSocket k sys.manager with
          | none =>
              refine ⟨⟨fun h => by simp at h, fun h => ?_⟩, fun h => ?_,
                fun _ n => hfresh n⟩
              · rw [hfresh k] at h
                exact Bool.noConfusion h
              · rw [hfresh k] at h
                exact Bool.noConfusion h
          | some w =>
              refine ⟨⟨fun _ => ?_, fun _ => rfl⟩,
                fun _ => hget.symm.trans (getOpen_eq_open hget),
                fun hres n => absurd rfl hres⟩
              exact obsAttached_addFrontendClient_self k obs sys.manager
        · refine ⟨⟨fun h => by simp at h, fun h => ?_⟩, fun h => ?_, ?_⟩
          · have h2 := obsAttached_initialize h
            rw [hfresh k] at h2
            exact Bool.noConfusion h2
          · have h2 := obsAttached_initialize h
            rw [hfresh k] at h2
            exact Bool.noConfusion h2
          · intro _ n
            cases hb : observerAttached ((initializeTargetConnection p svc
                sys.manager).1) n obs.id with
            | false => rfl
            | true =>
                have h2 := obsAttached_initialize hb
                rw [hfresh n] at h2
                exact Bool.noConfusion h2

/-- Witness for claim C6: with alpha stored and its upstream OPEN and no
observer yet attached, the upgrade request attaches observer 7. -/
theorem claim_C6_witness :
    ((relayUpgrade p0 obs7 "alpha" sysOpen0).2.1 = AttachResult.attached ↔
      observerAttached ((relayUpgrade p0 obs7 "alpha" sysOpen0).1).manager
        "alpha" 7 = true) ∧
    (observerAttached ((relayUpgrade p0 obs7 "alpha" sysOpen0).1).manager
        "alpha" 7 = true →
      getOpenTargetWebSocket "alpha" sysOpen0.manager
        = some ReadyState.OPEN) ∧
    ((relayUpgrade p0 obs7 "alpha" sysOpen0).2.1 ≠ AttachResult.attached →
      ∀ n, observerAttached
        ((relayUpgrade p0 obs7 "alpha" sysOpen0).1).manager n 7 = false) := by
  have hfresh : ∀ n, observerAttached sysOpen0.manager n 7 = false := by
    intro n
    unfold observerAttached
    have hfc : sysOpen0.manager.frontendClients n
        = if n = "alpha" then some [] else none := rfl
    rw [hfc]
    by_cases hn : n = "alpha" <;> simp [hn]
  exact claim_C6 p0 obs7 "alpha" sysOpen0 hfresh

/-- Claim C10 (confirmed): on an unexpected upstream close the manager
deletes the service's observer set and closes every attached live observer
with abnormal code 1011 — both when a reconnect is scheduled (attempts
below the cap: the session afterwards holds a pending timer) and when the
retry cap was reached (the session is deleted). -/
theorem claim_C10 (ms : ManagerState) (k : String)
    (st : TargetConnectionState) (obsList : List Observer) (c : Nat)
    (reason : String) (rand : ℚ)
    (hst : ms.targetConnections k = some st)
    (hint : st.isClosingIntentionally = false)
    (hlive : st.liveSockets ≠ 0)
    (hfc : ms.frontendClients k = some obsList) :
    ((onTargetClose k c reason rand ms).1).frontendClients k = none ∧
    (∀ o ∈ obsList, isLive o.readyState = true →
      ∃ rs, Effect.closeObserver o.id 1011 rs
        ∈ (onTargetClose k c reason rand ms).2) ∧
    (st.reconnectAttempts < MAX_RECONNECT_ATTEMPTS →
      (((onTargetClose k c reason rand ms).1).targetConnections k).map
        (fun s => s.reconnectTimer.isSome) = some true) ∧
    (MAX_RECONNECT_ATTEMPTS ≤ st.reconnectAttempts →
      ((onTargetClose k c reason rand ms).1).targetConnections k = none) := by
  rw [onTargetClose_unexpected hst hint hlive]
  have hst1 : (setTC ms k (some { st with
      ws := none, liveSockets := st.liveSockets - 1 })).targetConnections k
      = some { st with ws := none, liveSockets := st.liveSockets - 1 } :=
    setTC_tc_self _ _ _
  have hint1 : TargetConnectionState.isClosingIntentionally
      { st with ws := none, liveSockets := st.liveSockets - 1 } = false :=
    hint
  rcases Nat.lt_or_ge st.reconnectAttempts MAX_RECONNECT_ATTEMPTS
    with hlt | hge
  · have hlt1 : TargetConnectionState.reconnectAttempts
        { st with ws := none, liveSockets := st.liveSockets - 1 }
        < MAX_RECONNECT_ATTEMPTS := hlt
    rw [scheduleReconnect_lt hst1 hint1 hlt1]
    refine ⟨?_, ?_, ?_, ?_⟩
    · exact closeCAFC_fc_self _ _ _ _
    · intro o ho hl
      refine ⟨_, List.mem_append.mpr (Or.inr (closeCAFC_mem ?_ ho hl _ _))⟩
      exact hfc
    · intro _
      rw [closeCAFC_tc]
      dsimp only
      rw [setTC_tc_self]
      rfl
    · intro hge2
      omega
  · have hge1 : MAX_RECONNECT_ATTEMPTS ≤
        TargetConnectionState.reconnectAttempts
          { st with ws := none, liveSockets := st.liveSockets - 1 } := hge
    rw [scheduleReconnect_geq hst1 hge1]
    refine ⟨?_, ?_, ?_, ?_⟩
    · exact closeCAFC_fc_self _ _ _ _
    · intro o ho hl
      refine ⟨_, List.mem_append.mpr (Or.inl (closeCAFC_mem ?_ ho hl _ _))⟩
      exact hfc
    · intro hlt2
      omega
    · intro _
      rw [closeCAFC_tc, closeCAFC_tc]
      exact setTC_tc_self _ _ _

/-- Witness for claim C10: the open alpha session with observer 7 loses its
socket unexpectedly at attempt count 0; the observer set is deleted,
observer 7 is closed with 1011, and a reconnect timer is pending. -/
theorem claim_C10_witness :
    ((onTargetClose "alpha" 1006 "lost" 0 msA).1).frontendClients "alpha"
      = none ∧
    (∃ rs, Effect.closeObserver 7 1011 rs
      ∈ (onTargetClose "alpha" 1006 "lost" 0 msA).2) ∧
    (((onTargetClose "alpha" 1006 "lost" 0 msA).1).targetConnections
        "alpha").map (fun s => s.reconnectTimer.isSome) = some true := by
  have h := claim_C10 msA "alpha" stOpenA [obs7] 1006 "lost" 0
    (by decide) (by decide) (by decide) (by decide)
  exact ⟨h.1, h.2.1 obs7 (by decide) (by decide), h.2.2.1 (by decide)⟩

end McPanel
